import Mathlib

/-!
# Verification of the auth/session/game-import backend

Shallow embedding of the HTTP backend of this repository: the Postgres-only
server (`src/server.js`) and, where it differs, the dual-mode server
(`src/unnamed/part_000`).  JavaScript request/response values are embedded as
`JsVal`, the platform's `JSON.parse` / `JSON.stringify` as an executable
parser and printer over `JsVal`, the database and the express-session store as
explicit state, and every HTTP handler as a pure function from
(environment, state, cookie, body) to (response, state, cookie).
-/

namespace Backend

/-- JSON-representable JavaScript values, as produced by `body-parser` and by
`JSON.parse` and consumed by `JSON.stringify`.  Numbers are kept as their
source lexeme (a string), so no floating-point arithmetic is modelled; none of
the verified properties inspects numeric values beyond truthiness. -/
inductive JsVal where
  | null : JsVal
  | bool : Bool → JsVal
  | num : String → JsVal
  | str : String → JsVal
  | arr : List JsVal → JsVal
  | obj : List (String × JsVal) → JsVal

/-- A JSON number lexeme denotes zero iff every digit before the exponent
marker is `0` (`0`, `-0`, `0.00`, `0e5`, ...). -/
def numLexemeIsZero (lit : String) : Bool :=
  (lit.toList.takeWhile (fun c => c ≠ 'e' ∧ c ≠ 'E')).all
    (fun c => c = '0' ∨ c = '.' ∨ c = '-')

/-- JavaScript truthiness of an embedded value (`!v` in the source).
`undefined` is represented by `Option.none` at use sites. -/
def jsTruthy : JsVal → Bool
  | .null => false
  | .bool b => b
  | .num lit => !numLexemeIsZero lit
  | .str s => s ≠ ""
  | .arr _ => true
  | .obj _ => true

/-- Truthiness of a possibly-`undefined` value. -/
def jsTruthyOpt : Option JsVal → Bool
  | none => false
  | some v => jsTruthy v

/-- `typeof v === 'string'` on a possibly-`undefined` value. -/
def isStringOpt : Option JsVal → Bool
  | some (.str _) => true
  | _ => false

/-- Property access `o.k`: `undefined` (`none`) when the key is absent or the
value is not an object. -/
def getField (v : JsVal) (k : String) : Option JsVal :=
  match v with
  | .obj fields => (fields.find? (fun f => f.1 == k)).map (fun f => f.2)
  | _ => none

/-- Extract the string of a value known to be a string (dead default). -/
def strOf : Option JsVal → String
  | some (.str s) => s
  | _ => ""

/-- A possibly-`undefined` value, with `undefined` collapsed to `null`. -/
def valOf : Option JsVal → JsVal
  | some v => v
  | none => .null

/-- Whether a value is JSON `null`.  Reading a property of `null` throws a
TypeError in JavaScript; every other JSON-representable value merely yields
`undefined` for an absent property (primitives are boxed). -/
def JsVal.isNull : JsVal → Bool
  | .null => true
  | _ => false

/-! ## `JSON.stringify` -/

/-- Hex digit character used by `JSON.stringify` in `\u00XX` escapes
(lowercase, as V8 prints them). -/
def hexDigitChar (n : Nat) : Char :=
  if n < 10 then Char.ofNat (48 + n) else Char.ofNat (87 + n)

/-- `JSON.stringify`'s escaping of one character inside a string literal. -/
def escapeChar (c : Char) : List Char :=
  if c = '"' then ['\\', '"']
  else if c = '\\' then ['\\', '\\']
  else if c = '\x08' then ['\\', 'b']
  else if c = '\x0c' then ['\\', 'f']
  else if c = '\n' then ['\\', 'n']
  else if c = '\r' then ['\\', 'r']
  else if c = '\t' then ['\\', 't']
  else if c.toNat < 32 then
    ['\\', 'u', '0', '0', hexDigitChar (c.toNat / 16), hexDigitChar (c.toNat % 16)]
  else [c]

/-- Escape a whole character sequence. -/
def escapeChars : List Char → List Char
  | [] => []
  | c :: cs => escapeChar c ++ escapeChars cs

/-- A JSON string literal: quote, escaped body, quote. -/
def stringLit (s : String) : List Char :=
  '"' :: (escapeChars s.toList ++ ['"'])

mutual

/-- `JSON.stringify` of a value, as a character sequence. -/
def stringifyVal : JsVal → List Char
  | .null => "null".toList
  | .bool true => "true".toList
  | .bool false => "false".toList
  | .num lit => lit.toList
  | .str s => stringLit s
  | .arr xs => '[' :: (stringifyElems xs ++ [']'])
  | .obj fs => '\x7b' :: (stringifyMembers fs ++ ['\x7d'])

/-- Comma-separated element list of an array. -/
def stringifyElems : List JsVal → List Char
  | [] => []
  | x :: xs => stringifyVal x ++ stringifySepElems xs

/-- Elements after the first, each preceded by a comma. -/
def stringifySepElems : List JsVal → List Char
  | [] => []
  | x :: xs => ',' :: (stringifyVal x ++ stringifySepElems xs)

/-- Comma-separated member list of an object. -/
def stringifyMembers : List (String × JsVal) → List Char
  | [] => []
  | f :: fs => stringLit f.1 ++ (':' :: stringifyVal f.2) ++ stringifySepMembers fs

/-- Members after the first, each preceded by a comma. -/
def stringifySepMembers : List (String × JsVal) → List Char
  | [] => []
  | f :: fs => ',' :: (stringLit f.1 ++ (':' :: stringifyVal f.2) ++ stringifySepMembers fs)

end

/-- `JSON.stringify` as a string-valued function. -/
def jsonStringify (v : JsVal) : String :=
  String.mk (stringifyVal v)

/-! ## `JSON.parse` -/

/-- Skip JSON insignificant whitespace. -/
def skipWs : List Char → List Char
  | [] => []
  | c :: rest =>
    if c = ' ' ∨ c = '\t' ∨ c = '\n' ∨ c = '\r' then skipWs rest else c :: rest

/-- Value of a hex digit character, if it is one. -/
def hexVal (c : Char) : Option Nat :=
  if '0' ≤ c ∧ c ≤ '9' then some (c.toNat - 48)
  else if 'a' ≤ c ∧ c ≤ 'f' then some (c.toNat - 87)
  else if 'A' ≤ c ∧ c ≤ 'F' then some (c.toNat - 55)
  else none

/-- Translation of a single-character escape (`\"`, `\\`, `\/`, `\b`, `\f`,
`\n`, `\r`, `\t`). -/
def unescapeChar (e : Char) : Option Char :=
  if e = '"' then some '"'
  else if e = '\\' then some '\\'
  else if e = '/' then some '/'
  else if e = 'b' then some '\x08'
  else if e = 'f' then some '\x0c'
  else if e = 'n' then some '\n'
  else if e = 'r' then some '\r'
  else if e = 't' then some '\t'
  else none

/-- Parse the body of a JSON string literal (after the opening quote), up to
and including the closing quote; returns the decoded characters and the rest
of the input.  Raw control characters are a syntax error, as in JSON. -/
def parseStringBody : List Char → Option (List Char × List Char)
  | [] => none
  | c :: rest =>
    if c = '"' then some ([], rest)
    else if c = '\\' then
      match rest with
      | [] => none
      | e :: rest2 =>
        if e = 'u' then
          match rest2 with
          | h1 :: h2 :: h3 :: h4 :: rest3 =>
            match hexVal h1, hexVal h2, hexVal h3, hexVal h4 with
            | some a, some b, some c2, some d =>
              (parseStringBody rest3).map
                (fun p => (Char.ofNat (4096 * a + 256 * b + 16 * c2 + d) :: p.1, p.2))
            | _, _, _, _ => none
          | _ => none
        else
          match unescapeChar e with
          | some u => (parseStringBody rest2).map (fun p => (u :: p.1, p.2))
          | none => none
    else if c.toNat < 32 then none
    else (parseStringBody rest).map (fun p => (c :: p.1, p.2))

/-- Longest digit prefix. -/
def takeDigits : List Char → (List Char × List Char)
  | [] => ([], [])
  | c :: rest =>
    if c.isDigit then
      let p := takeDigits rest
      (c :: p.1, p.2)
    else ([], c :: rest)

/-- JSON integer part: `0`, or a nonzero digit followed by digits. -/
def lexIntPart : List Char → Option (List Char × List Char)
  | [] => none
  | c :: rest =>
    if c = '0' then some (['0'], rest)
    else if c.isDigit then
      let p := takeDigits rest
      some (c :: p.1, p.2)
    else none

/-- JSON fraction part, or nothing if absent/ill-formed (an ill-formed dot is
left in the input and fails later, as in strict JSON). -/
def lexFracPart : List Char → (List Char × List Char)
  | '.' :: c :: rest =>
    if c.isDigit then
      let p := takeDigits rest
      ('.' :: c :: p.1, p.2)
    else ([], '.' :: c :: rest)
  | other => ([], other)

/-- JSON exponent part, or nothing. -/
def lexExpPart (l : List Char) : (List Char × List Char) :=
  match l with
  | e :: rest =>
    if e = 'e' ∨ e = 'E' then
      match rest with
      | s :: rest2 =>
        if s = '+' ∨ s = '-' then
          match rest2 with
          | d :: rest3 =>
            if d.isDigit then
              let p := takeDigits rest3
              (e :: s :: d :: p.1, p.2)
            else ([], l)
          | [] => ([], l)
        else if s.isDigit then
          let p := takeDigits rest2
          (e :: s :: p.1, p.2)
        else ([], l)
      | [] => ([], l)
    else ([], l)
  | [] => ([], [])

/-- Lex a JSON number token. -/
def lexNumber (l : List Char) : Option (List Char × List Char) :=
  let sign : List Char × List Char :=
    match l with
    | '-' :: r => (['-'], r)
    | _ => ([], l)
  match lexIntPart sign.2 with
  | none => none
  | some (ip, l2) =>
    let fp := lexFracPart l2
    let ep := lexExpPart fp.2
    some (sign.1 ++ ip ++ fp.1 ++ ep.1, ep.2)

/-- Consume an expected literal character sequence. -/
def dropLit : List Char → List Char → Option (List Char)
  | [], l => some l
  | e :: es, c :: rest => if c = e then dropLit es rest else none
  | _ :: _, [] => none

mutual

/-- Fuelled recursive-descent JSON value parser (strict JSON, as
`JSON.parse`): returns the value and the unconsumed rest. -/
def parseVal : Nat → List Char → Option (JsVal × List Char)
  | 0, _ => none
  | fuel + 1, l =>
    match skipWs l with
    | [] => none
    | c :: rest =>
      if c = 'n' then (dropLit ['u', 'l', 'l'] rest).map (fun r => (.null, r))
      else if c = 't' then (dropLit ['r', 'u', 'e'] rest).map (fun r => (.bool true, r))
      else if c = 'f' then (dropLit ['a', 'l', 's', 'e'] rest).map (fun r => (.bool false, r))
      else if c = '"' then
        (parseStringBody rest).map (fun p => (.str (String.mk p.1), p.2))
      else if c = '[' then
        match skipWs rest with
        | ']' :: rest2 => some (.arr [], rest2)
        | l2 => (parseElems fuel l2).map (fun p => (.arr p.1, p.2))
      else if c = '\x7b' then
        match skipWs rest with
        | '\x7d' :: rest2 => some (.obj [], rest2)
        | l2 => (parseMembers fuel l2).map (fun p => (.obj p.1, p.2))
      else
        (lexNumber (c :: rest)).map (fun p => (.num (String.mk p.1), p.2))

/-- Parse one or more comma-separated array elements and the closing `]`. -/
def parseElems : Nat → List Char → Option (List JsVal × List Char)
  | 0, _ => none
  | fuel + 1, l =>
    match parseVal fuel l with
    | none => none
    | some (v, rest) =>
      match skipWs rest with
      | ']' :: rest2 => some ([v], rest2)
      | ',' :: rest2 => (parseElems fuel rest2).map (fun p => (v :: p.1, p.2))
      | _ => none

/-- Parse one or more comma-separated object members and the closing brace. -/
def parseMembers : Nat → List Char → Option (List (String × JsVal) × List Char)
  | 0, _ => none
  | fuel + 1, l =>
    match skipWs l with
    | '"' :: rest =>
      match parseStringBody rest with
      | none => none
      | some (kcs, rest2) =>
        match skipWs rest2 with
        | ':' :: rest3 =>
          match parseVal fuel rest3 with
          | none => none
          | some (v, rest4) =>
            match skipWs rest4 with
            | '\x7d' :: rest5 => some ([(String.mk kcs, v)], rest5)
            | ',' :: rest5 =>
              (parseMembers fuel rest5).map (fun p => ((String.mk kcs, v) :: p.1, p.2))
            | _ => none
        | _ => none
    | _ => none

end

/-- `JSON.parse`: whole-input parse, allowing surrounding whitespace;
`none` models the thrown `SyntaxError`. -/
def jsonParse (s : String) : Option JsVal :=
  match parseVal (s.length + 1) s.toList with
  | some (v, rest) => if skipWs rest = [] then some v else none
  | none => none

/-! ## The bcrypt library

`bcrypt` is an external dependency, not repository code.  It is modelled by
its functional contract: hashing is deterministic here (the salt is not
modelled) and comparison succeeds exactly on the hash of the same password.
`bcrypt.hash` / `bcrypt.compare` reject non-string data, which the dual-mode
server can actually feed them. -/

/-- Model of `bcrypt.hash` on a string password. -/
def bcryptHash (password : String) : String :=
  "$2b$10$" ++ password

/-- Model of `bcrypt.compare`: succeeds exactly when the hash belongs to this
password. -/
def bcryptCompare (password hash : String) : Bool :=
  hash == bcryptHash password

/-! ## Database state

Logical content of the two tables created by `ensureTables`
(`src/server.js` lines 52-70): `users(id, username UNIQUE, password_hash,
created_at)` and `games(id, user_id, pgn, fens, created_at)`.  `SERIAL` ids
are modelled by explicit counters. -/

/-- A row of the `users` table (`created_at` is never read by any handler and
is omitted). -/
structure UserRow where
  id : Nat
  username : String
  password_hash : String

/-- A row of the `games` table. -/
structure GameRow where
  id : Nat
  user_id : Nat
  pgn : String
  fens : String
  created_at : String

/-- The database. -/
structure Db where
  users : List UserRow
  games : List GameRow
  nextUserId : Nat
  nextGameId : Nat

/-! ## Session state

`express-session` with `connect-pg-simple`: the store maps session
identifiers to session data; `regenerate` destroys the current identifier and
allocates a fresh one.  Identifiers are modelled as naturals drawn from a
strictly increasing counter, which captures that a newly generated identifier
differs from every previously issued one (in reality they are
cryptographically random strings). -/

/-- Identity fields a handler can bind on `req.session`. -/
structure SessionData where
  userId : Option Nat
  username : Option String

/-- The session store plus the identifier generator. -/
structure Sessions where
  store : List (Nat × SessionData)
  nextSid : Nat

/-- Store lookup by session identifier. -/
def lookupSession (sess : Sessions) (sid : Nat) : Option SessionData :=
  (sess.store.find? (fun e => e.1 == sid)).map (fun e => e.2)

/-- Session data visible as `req.session` for a request carrying `cookie`:
the stored data for a known identifier, otherwise a fresh anonymous session
(never persisted, since `saveUninitialized` is false). -/
def sessionOf (sess : Sessions) (cookie : Option Nat) : SessionData :=
  match cookie with
  | some sid =>
    match lookupSession sess sid with
    | some d => d
    | none => ⟨none, none⟩
  | none => ⟨none, none⟩

/-- JavaScript truthiness of `req.session.userId` (ids are numbers). -/
def userIdTruthy (d : SessionData) : Bool :=
  match d.userId with
  | some uid => uid != 0
  | none => false

/-- `session.regenerate` followed by binding the identity fields, as both
`register` and `login` do on success: the current identifier is destroyed in
the store, a fresh identifier is allocated, and the identity is bound to the
fresh identifier only.  The source's `regenerate` error callback (500
`session_error`) is a session-store failure whose resulting library state is
not determined by repository code; the store itself is modelled as reliable,
so that branch is not reachable here. -/
def regenerateAndBind (sess : Sessions) (cookie : Option Nat) (uid : Nat)
    (uname : String) : Sessions × Nat :=
  let store1 :=
    match cookie with
    | some sid => sess.store.filter (fun e => e.1 != sid)
    | none => sess.store
  let newSid := sess.nextSid
  (⟨(newSid, ⟨some uid, some uname⟩) :: store1, sess.nextSid + 1⟩, newSid)

/-! ## Environment

Inputs of a request that are not state: the clock and failure oracles for the
fallible storage/hashing calls the claims quantify over (each `await` of
`bcrypt.hash` or an `INSERT` may reject; reads and the session store are
modelled as reliable). -/

/-- Per-request environment. -/
structure Env where
  now : String
  hashFails : String → Bool
  insertUserFails : String → Bool
  gameInsertFails : GameRow → Bool

/-! ## DB wrappers (`db` object, `src/server.js` lines 73-105) -/

/-- `findUserByName`: `SELECT id, username, password_hash FROM users WHERE
username = $1` (first row or null; `username` is UNIQUE). -/
def findUserByName (db : Db) (username : String) : Option UserRow :=
  db.users.find? (fun u => u.username == username)

/-- `insertUser`: `INSERT INTO users (username, password_hash) VALUES ($1,
$2) RETURNING id`. -/
def insertUser (db : Db) (username password_hash : String) : Nat × Db :=
  (db.nextUserId,
   { db with
      users := db.users ++ [⟨db.nextUserId, username, password_hash⟩],
      nextUserId := db.nextUserId + 1 })

/-- Conversion of a JavaScript value to a Postgres text parameter, as the
`pg` driver serializes it (`none` is SQL NULL).  Structured values are
serialized by `pg` in ways no claim exercises (array literals, JSON); they
are modelled as their JSON encoding. -/
def pgTextParam : JsVal → Option String
  | .null => none
  | .bool b => some (if b then "true" else "false")
  | .num lit => some lit
  | .str s => some s
  | v => some (jsonStringify v)

/-- `username = $1` lookup with a raw request value as the parameter (the
dual-mode `login`/`register` can pass non-strings). -/
def findUserByParam (db : Db) (v : JsVal) : Option UserRow :=
  match pgTextParam v with
  | some s => findUserByName db s
  | none => none

/-- `g.pgn || ''` serialized as the text parameter of the `INSERT`.  Only
evaluated for non-null records: on a null record the `g.pgn` access itself
throws before any value is formed, which `mkGameRow` models by failing the
whole row. -/
def pgnField (g : JsVal) : String :=
  match getField g "pgn" with
  | some v => if jsTruthy v then (pgTextParam v).getD "" else ""
  | none => ""

/-- Normalization of `g.fens` in `db.insertGamesBulk` (`src/server.js` line
89): null/undefined becomes `[]`; a string is kept when it parses as JSON and
otherwise wrapped into a one-element array; any other value is
JSON-encoded. -/
def normalizeFens (fens : Option JsVal) : String :=
  match fens with
  | none => "[]"
  | some .null => "[]"
  | some (.str s) =>
    match jsonParse s with
    | some _ => s
    | none => jsonStringify (.arr [.str s])
  | some v => jsonStringify v

/-- `g.date || g.created_at || new Date().toISOString()` (`src/server.js`
line 90). -/
def createdAtField (g : JsVal) (now : String) : String :=
  match getField g "date" with
  | some d =>
    if jsTruthy d then (pgTextParam d).getD "" else
      match getField g "created_at" with
      | some c => if jsTruthy c then (pgTextParam c).getD "" else now
      | none => now
  | none =>
    match getField g "created_at" with
    | some c => if jsTruthy c then (pgTextParam c).getD "" else now
    | none => now

/-- The row the Postgres-only server inserts for one non-null record of a
bulk batch. -/
def gameRowOf (env : Env) (userId gid : Nat) (g : JsVal) : GameRow :=
  ⟨gid, userId, pgnField g, normalizeFens (getField g "fens"),
   createdAtField g env.now⟩

/-- One loop iteration's row construction (`src/server.js` lines 88-90):
reading `g.pgn` of a null record throws a TypeError (null is the only
JSON-representable value whose property access throws), which aborts the
transaction; any other record yields its row. -/
def mkGameRow (env : Env) (userId gid : Nat) (g : JsVal) : Except String GameRow :=
  if g.isNull then .error "type_error"
  else .ok (gameRowOf env userId gid g)

/-- The loop body of `db.insertGamesBulk` inside the transaction: inserts
applied to a transaction-local row list; the first thrown TypeError or
failing `INSERT` aborts (the oracle decides which inserts the storage layer
rejects). -/
def runGameInserts (env : Env) (userId : Nat) : List JsVal → Nat →
    Except String (List GameRow)
  | [], _ => .ok []
  | g :: rest, gid =>
    match mkGameRow env userId gid g with
    | .error e => .error e
    | .ok row =>
      if env.gameInsertFails row then .error "insert_failed"
      else
        match runGameInserts env userId rest (gid + 1) with
        | .ok rows => .ok (row :: rows)
        | .error e => .error e

/-- `db.insertGamesBulk` (`src/server.js` lines 82-100): `BEGIN`, the insert
loop, `COMMIT`; on any failure `ROLLBACK` leaves the database untouched and
the error is rethrown. -/
def insertGamesBulk (env : Env) (db : Db) (userId : Nat) (games : List JsVal) :
    Except String Db :=
  match runGameInserts env userId games db.nextGameId with
  | .ok rows =>
    .ok { db with games := db.games ++ rows, nextGameId := db.nextGameId + rows.length }
  | .error e => .error e

/-- One returned element of `db.getGamesByUser`: `JSON.parse(r.fens || '[]')`
throws (`none`) on a corrupt stored value. -/
structure GameOut where
  id : Nat
  pgn : String
  fens : JsVal
  created_at : String

/-- Map one selected row through `JSON.parse (r.fens || '[]')`. -/
def rowToGameOut (r : GameRow) : Option GameOut :=
  (jsonParse (if r.fens = "" then "[]" else r.fens)).map
    (fun v => ⟨r.id, r.pgn, v, r.created_at⟩)

/-- `ORDER BY created_at DESC`, modelled as insertion sort on the timestamp
text (ISO timestamps compare lexicographically; tie order is not relied
upon). -/
def insertByDateDesc (r : GameRow) : List GameRow → List GameRow
  | [] => [r]
  | x :: xs => if x.created_at ≤ r.created_at then r :: x :: xs
               else x :: insertByDateDesc r xs

/-- Sort rows newest first. -/
def sortByDateDesc : List GameRow → List GameRow
  | [] => []
  | x :: xs => insertByDateDesc x (sortByDateDesc xs)

/-- Map all rows, failing on the first corrupt one (the thrown `JSON.parse`
error aborts the whole `.map` in the source). -/
def rowsToGameOuts : List GameRow → Except String (List GameOut)
  | [] => .ok []
  | r :: rs =>
    match rowToGameOut r with
    | none => .error "json_parse"
    | some o =>
      match rowsToGameOuts rs with
      | .ok os => .ok (o :: os)
      | .error e => .error e

/-- `db.getGamesByUser` (`src/server.js` lines 101-104). -/
def getGamesByUser (db : Db) (userId : Nat) : Except String (List GameOut) :=
  rowsToGameOuts (sortByDateDesc (db.games.filter (fun r => r.user_id == userId)))

/-! ## HTTP handlers

Each handler is a pure function from (environment, server state, the client's
session cookie, the parsed JSON request body) to a response, the new server
state, and the client's cookie after the exchange.  `src/server.js` and
`src/unnamed/part_000` install identical handlers for `/api/me`, `/api/login`,
`/api/logout` and `/api/games`; they differ in `/api/register` (input
validation) and in the bulk insert behind `/api/import`. -/

/-- An HTTP response: status code and JSON body. -/
structure Response where
  status : Nat
  body : JsVal

/-- A JSON error body `{error: code}`. -/
def errBody (code : String) : JsVal :=
  .obj [("error", .str code)]

/-- The full state of the server process. -/
structure ServerState where
  db : Db
  sess : Sessions

/-- Result of one request round trip. -/
structure Outcome where
  resp : Response
  st : ServerState
  cookie : Option Nat

/-- `req.body || {}` (`body-parser` yields `{}` when there is no JSON
body; a falsy body is replaced by `{}`). -/
def bodyOrEmpty (body : JsVal) : JsVal :=
  if jsTruthy body then body else .obj []

/-- `GET /api/me` (`src/server.js` lines 145-148). -/
def meHandler (st : ServerState) (cookie : Option Nat) : Response :=
  let d := sessionOf st.sess cookie
  if userIdTruthy d then
    ⟨200, .obj [("username", match d.username with
                             | some s => .str s
                             | none => .null)]⟩
  else ⟨401, errBody "not_authenticated"⟩

/-- `POST /api/register` of the Postgres-only server (`src/server.js` lines
151-178): validation rejects missing/falsy and non-string inputs; duplicate
check; `bcrypt.hash`; insert; session regeneration and identity binding. -/
def registerHandler (env : Env) (st : ServerState) (cookie : Option Nat)
    (body : JsVal) : Outcome :=
  let b := bodyOrEmpty body
  let u? := getField b "username"
  let p? := getField b "password"
  if !jsTruthyOpt u? || !jsTruthyOpt p? || !isStringOpt u? || !isStringOpt p? then
    ⟨⟨400, errBody "username_and_password_required"⟩, st, cookie⟩
  else
    let u := strOf u?
    let p := strOf p?
    match findUserByName st.db u with
    | some _ => ⟨⟨409, errBody "username_taken"⟩, st, cookie⟩
    | none =>
      if env.hashFails p then ⟨⟨500, errBody "internal"⟩, st, cookie⟩
      else
        let password_hash := bcryptHash p
        if env.insertUserFails u then ⟨⟨500, errBody "internal"⟩, st, cookie⟩
        else
          let r := insertUser st.db u password_hash
          let s := regenerateAndBind st.sess cookie r.1 u
          ⟨⟨201, .obj [("username", .str u)]⟩, ⟨r.2, s.1⟩, some s.2⟩

/-- `POST /api/register` of the dual-mode server (`src/unnamed/part_000`
lines 181-205): validation checks truthiness only, so a truthy non-string
reaches `bcrypt.hash`, which rejects non-string data (caught as 500
`internal`). -/
def registerHandlerDual (env : Env) (st : ServerState) (cookie : Option Nat)
    (body : JsVal) : Outcome :=
  let b := bodyOrEmpty body
  let u? := getField b "username"
  let p? := getField b "password"
  if !jsTruthyOpt u? || !jsTruthyOpt p? then
    ⟨⟨400, errBody "username_and_password_required"⟩, st, cookie⟩
  else
    match findUserByParam st.db (valOf u?) with
    | some _ => ⟨⟨409, errBody "username_taken"⟩, st, cookie⟩
    | none =>
      match valOf p? with
      | .str p =>
        if env.hashFails p then ⟨⟨500, errBody "internal"⟩, st, cookie⟩
        else
          let password_hash := bcryptHash p
          let uParam := (pgTextParam (valOf u?)).getD ""
          if env.insertUserFails uParam then ⟨⟨500, errBody "internal"⟩, st, cookie⟩
          else
            let r := insertUser st.db uParam password_hash
            let s := regenerateAndBind st.sess cookie r.1 (strOf u?)
            ⟨⟨201, .obj [("username", valOf u?)]⟩, ⟨r.2, s.1⟩, some s.2⟩
      | _ => ⟨⟨500, errBody "internal"⟩, st, cookie⟩

/-- `POST /api/login` (identical in both servers, `src/server.js` lines
181-205): truthiness validation; lookup; `bcrypt.compare`; on success session
regeneration and identity binding.  A non-string password makes
`bcrypt.compare` reject (caught as 500 `internal`). -/
def loginHandler (_env : Env) (st : ServerState) (cookie : Option Nat)
    (body : JsVal) : Outcome :=
  let b := bodyOrEmpty body
  let u? := getField b "username"
  let p? := getField b "password"
  if !jsTruthyOpt u? || !jsTruthyOpt p? then
    ⟨⟨400, errBody "username_and_password_required"⟩, st, cookie⟩
  else
    match findUserByParam st.db (valOf u?) with
    | none => ⟨⟨401, errBody "invalid_credentials"⟩, st, cookie⟩
    | some user =>
      match valOf p? with
      | .str p =>
        if bcryptCompare p user.password_hash then
          let s := regenerateAndBind st.sess cookie user.id user.username
          ⟨⟨200, .obj [("username", .str user.username)]⟩, ⟨st.db, s.1⟩, some s.2⟩
        else ⟨⟨401, errBody "invalid_credentials"⟩, st, cookie⟩
      | _ => ⟨⟨500, errBody "internal"⟩, st, cookie⟩

/-- `POST /api/logout` (`src/server.js` lines 208-217): destroys the current
session in the store and clears the cookie. -/
def logoutHandler (st : ServerState) (cookie : Option Nat) : Outcome :=
  let store1 :=
    match cookie with
    | some sid => st.sess.store.filter (fun e => e.1 != sid)
    | none => st.sess.store
  ⟨⟨200, .obj [("ok", .bool true)]⟩, ⟨st.db, ⟨store1, st.sess.nextSid⟩⟩, none⟩

/-- `POST /api/import` of the Postgres-only server (`src/server.js` lines
220-232): `requireAuth`, payload shape check, transactional bulk insert. -/
def importHandler (env : Env) (st : ServerState) (cookie : Option Nat)
    (body : JsVal) : Outcome :=
  let d := sessionOf st.sess cookie
  if !userIdTruthy d then ⟨⟨401, errBody "not_authenticated"⟩, st, cookie⟩
  else
    let payload := bodyOrEmpty body
    match getField payload "games" with
    | some (.arr games) =>
      match insertGamesBulk env st.db (d.userId.getD 0) games with
      | .ok db1 =>
        ⟨⟨200, .obj [("imported", .num (toString games.length))]⟩,
         ⟨db1, st.sess⟩, cookie⟩
      | .error _ => ⟨⟨500, errBody "internal"⟩, st, cookie⟩
    | _ => ⟨⟨400, errBody "invalid_payload"⟩, st, cookie⟩

/-- The JSON object for one game in the `GET /api/games` response. -/
def gameOutJson (o : GameOut) : JsVal :=
  .obj [("id", .num (toString o.id)), ("pgn", .str o.pgn),
        ("fens", o.fens), ("date", .str o.created_at)]

/-- `GET /api/games` (`src/server.js` lines 235-243). -/
def gamesHandler (st : ServerState) (cookie : Option Nat) : Outcome :=
  let d := sessionOf st.sess cookie
  if !userIdTruthy d then ⟨⟨401, errBody "not_authenticated"⟩, st, cookie⟩
  else
    match getGamesByUser st.db (d.userId.getD 0) with
    | .ok outs =>
      ⟨⟨200, .obj [("games", .arr (outs.map gameOutJson))]⟩, st, cookie⟩
    | .error _ => ⟨⟨500, errBody "internal"⟩, st, cookie⟩

/-! ## Dual-mode bulk insert (`src/unnamed/part_000`)

Both its Postgres branch (lines 62-76) and its SQLite branch (lines 129-133)
insert `JSON.stringify(g.fens || [])` with no JSON-or-wrap normalization. -/

/-- The row the dual-mode server inserts for one non-null record
(`created_at` takes the column default). -/
def gameRowOfDual (env : Env) (userId gid : Nat) (g : JsVal) : GameRow :=
  ⟨gid, userId, pgnField g,
   jsonStringify (match getField g "fens" with
                  | some v => if jsTruthy v then v else .arr []
                  | none => .arr []),
   env.now⟩

/-- One dual-mode loop iteration's row construction: as in `mkGameRow`, the
`g.pgn` access of a null record throws a TypeError and aborts the
transaction. -/
def mkGameRowDual (env : Env) (userId gid : Nat) (g : JsVal) :
    Except String GameRow :=
  if g.isNull then .error "type_error"
  else .ok (gameRowOfDual env userId gid g)

/-- The dual-mode transaction loop. -/
def runGameInsertsDual (env : Env) (userId : Nat) : List JsVal → Nat →
    Except String (List GameRow)
  | [], _ => .ok []
  | g :: rest, gid =>
    match mkGameRowDual env userId gid g with
    | .error e => .error e
    | .ok row =>
      if env.gameInsertFails row then .error "insert_failed"
      else
        match runGameInsertsDual env userId rest (gid + 1) with
        | .ok rows => .ok (row :: rows)
        | .error e => .error e

/-- `queries.insertGamesBulk` of the dual-mode server: same transaction
structure, no fens normalization. -/
def insertGamesBulkDual (env : Env) (db : Db) (userId : Nat)
    (games : List JsVal) : Except String Db :=
  match runGameInsertsDual env userId games db.nextGameId with
  | .ok rows =>
    .ok { db with games := db.games ++ rows, nextGameId := db.nextGameId + rows.length }
  | .error e => .error e

/-- `POST /api/import` of the dual-mode server (`src/unnamed/part_000` lines
239-255). -/
def importHandlerDual (env : Env) (st : ServerState) (cookie : Option Nat)
    (body : JsVal) : Outcome :=
  let d := sessionOf st.sess cookie
  if !userIdTruthy d then ⟨⟨401, errBody "not_authenticated"⟩, st, cookie⟩
  else
    let payload := bodyOrEmpty body
    match getField payload "games" with
    | some (.arr games) =>
      match insertGamesBulkDual env st.db (d.userId.getD 0) games with
      | .ok db1 =>
        ⟨⟨200, .obj [("imported", .num (toString games.length))]⟩,
         ⟨db1, st.sess⟩, cookie⟩
      | .error _ => ⟨⟨500, errBody "internal"⟩, st, cookie⟩
    | _ => ⟨⟨400, errBody "invalid_payload"⟩, st, cookie⟩

/-! ## Invariants, step relation and fixtures -/

/-- Every stored session identifier was drawn from the generator. -/
def sessInvariant (sess : Sessions) : Prop :=
  ∀ e ∈ sess.store, e.1 < sess.nextSid

/-- An identifier a client holds was issued earlier (or it holds none). -/
def cookieIssued (sess : Sessions) : Option Nat → Prop
  | some sid => sid < sess.nextSid
  | none => True

/-- One inbound request of any kind, as a relation on the server state (the
handlers that do not return an `Outcome` leave the state untouched). -/
inductive serverStep : ServerState → ServerState → Prop where
  | register (env : Env) (st : ServerState) (cookie : Option Nat) (body : JsVal) :
      serverStep st (registerHandler env st cookie body).st
  | registerDual (env : Env) (st : ServerState) (cookie : Option Nat) (body : JsVal) :
      serverStep st (registerHandlerDual env st cookie body).st
  | login (env : Env) (st : ServerState) (cookie : Option Nat) (body : JsVal) :
      serverStep st (loginHandler env st cookie body).st
  | logout (st : ServerState) (cookie : Option Nat) :
      serverStep st (logoutHandler st cookie).st
  | importGames (env : Env) (st : ServerState) (cookie : Option Nat) (body : JsVal) :
      serverStep st (importHandler env st cookie body).st
  | importGamesDual (env : Env) (st : ServerState) (cookie : Option Nat) (body : JsVal) :
      serverStep st (importHandlerDual env st cookie body).st
  | games (st : ServerState) (cookie : Option Nat) :
      serverStep st (gamesHandler st cookie).st

/-- The rows a successful transaction loop of the Postgres-only bulk insert
produces (defined for batches without null records). -/
def builtRows (env : Env) (userId : Nat) : List JsVal → Nat → List GameRow
  | [], _ => []
  | g :: rest, gid => gameRowOf env userId gid g :: builtRows env userId rest (gid + 1)

/-- Check that a record's normalized fens text will reparse on read-back
(true of every value `JSON.stringify` can produce in JavaScript; the model
admits raw number lexemes for which it can fail). -/
def storedFensParses (g : JsVal) : Bool :=
  (jsonParse (normalizeFens (getField g "fens"))).isSome

/-- Check that one stored row will survive `JSON.parse (r.fens || '[]')`. -/
def rowFensParses (r : GameRow) : Bool :=
  (jsonParse (if r.fens = "" then "[]" else r.fens)).isSome

/-- Fixture: an environment whose storage and hashing never fail. -/
def envOk : Env :=
  ⟨"2026-01-01T00:00:00.000Z", fun _ => false, fun _ => false, fun _ => false⟩

/-- Fixture: an environment whose storage rejects the insert of any game row
whose pgn is `"b"`. -/
def envFailB : Env :=
  ⟨"2026-01-01T00:00:00.000Z", fun _ => false, fun _ => false,
   fun r => r.pgn == "b"⟩

/-- Fixture: freshly booted server, empty tables, empty session store. -/
def st0 : ServerState := ⟨⟨[], [], 1, 1⟩, ⟨[], 0⟩⟩

/-- Fixture: a register/login request body. -/
def credBody (u p : String) : JsVal :=
  .obj [("username", .str u), ("password", .str p)]

/-- Fixture: server state with user `alice` registered and an authenticated
session 0 bound to her. -/
def aliceSt : ServerState :=
  ⟨⟨[⟨1, "alice", bcryptHash "secret123"⟩], [], 2, 1⟩,
   ⟨[(0, ⟨some 1, some "alice"⟩)], 1⟩⟩

/-- A session's identity was freshly bound: see claim C1.  The outcome's
cookie is a new identifier never seen before, identity fields live exactly
there, and every other identifier either vanished or kept its old data. -/
def freshRegeneratedBind (st : ServerState) (cookie : Option Nat)
    (out : Outcome) : Prop :=
  ∃ newSid,
    out.cookie = some newSid ∧
    (∀ old, cookie = some old → old ≠ newSid) ∧
    (∀ e ∈ st.sess.store, e.1 ≠ newSid) ∧
    (∃ uid un, lookupSession out.st.sess newSid = some ⟨some uid, some un⟩) ∧
    (∀ sid, sid ≠ newSid →
      lookupSession out.st.sess sid = none ∨
      lookupSession out.st.sess sid = lookupSession st.sess sid)

end Backend

namespace Backend

/-! ## Round-trip facts about the JSON printer and parser -/

lemma hexVal_hexDigitChar (k : Nat) (hk : k < 16) :
    hexVal (hexDigitChar k) = some k := by
  interval_cases k <;> decide

lemma psb_close (rest : List Char) : parseStringBody ('"' :: rest) = some ([], rest) := by
  rw [parseStringBody.eq_def]; simp

lemma psb_escNamed (e u : Char) (rest : List Char) (hu : e ≠ 'u')
    (he : unescapeChar e = some u) :
    parseStringBody ('\\' :: e :: rest)
      = (parseStringBody rest).map (fun p => (u :: p.1, p.2)) := by
  rw [parseStringBody.eq_def]
  simp [hu, he]

lemma psb_escU (h1 h2 h3 h4 : Char) (rest : List Char) :
    parseStringBody ('\\' :: 'u' :: h1 :: h2 :: h3 :: h4 :: rest)
      = match hexVal h1, hexVal h2, hexVal h3, hexVal h4 with
        | some a, some b, some c2, some d =>
          (parseStringBody rest).map
            (fun p => (Char.ofNat (4096 * a + 256 * b + 16 * c2 + d) :: p.1, p.2))
        | _, _, _, _ => none := by
  rw [parseStringBody.eq_def]
  simp

lemma psb_plain (c : Char) (rest : List Char) (h1 : c ≠ '"') (h2 : c ≠ '\\')
    (h3 : ¬ c.toNat < 32) :
    parseStringBody (c :: rest)
      = (parseStringBody rest).map (fun p => (c :: p.1, p.2)) := by
  rw [parseStringBody.eq_def]
  simp [h1, h2, h3]

lemma parseStringBody_escape (cs : List Char) (rest : List Char) :
    parseStringBody (escapeChars cs ++ '"' :: rest) = some (cs, rest) := by
  induction cs with
  | nil => simpa [escapeChars] using psb_close rest
  | cons c cs ih =>
    by_cases h1 : c = '"'
    · subst h1
      show parseStringBody ('\\' :: '"' :: (escapeChars cs ++ '"' :: rest)) = _
      rw [psb_escNamed '"' '"' _ (by decide) rfl]
      simp [ih]
    · by_cases h2 : c = '\\'
      · subst h2
        show parseStringBody ('\\' :: '\\' :: (escapeChars cs ++ '"' :: rest)) = _
        rw [psb_escNamed '\\' '\\' _ (by decide) rfl]
        simp [ih]
      · by_cases h3 : c = '\x08'
        · subst h3
          show parseStringBody ('\\' :: 'b' :: (escapeChars cs ++ '"' :: rest)) = _
          rw [psb_escNamed 'b' '\x08' _ (by decide) rfl]
          simp [ih]
        · by_cases h4 : c = '\x0c'
          · subst h4
            show parseStringBody ('\\' :: 'f' :: (escapeChars cs ++ '"' :: rest)) = _
            rw [psb_escNamed 'f' '\x0c' _ (by decide) rfl]
            simp [ih]
          · by_cases h5 : c = '\n'
            · subst h5
              show parseStringBody ('\\' :: 'n' :: (escapeChars cs ++ '"' :: rest)) = _
              rw [psb_escNamed 'n' '\n' _ (by decide) rfl]
              simp [ih]
            · by_cases h6 : c = '\r'
              · subst h6
                show parseStringBody ('\\' :: 'r' :: (escapeChars cs ++ '"' :: rest)) = _
                rw [psb_escNamed 'r' '\r' _ (by decide) rfl]
                simp [ih]
              · by_cases h7 : c = '\t'
                · subst h7
                  show parseStringBody ('\\' :: 't' :: (escapeChars cs ++ '"' :: rest)) = _
                  rw [psb_escNamed 't' '\t' _ (by decide) rfl]
                  simp [ih]
                · by_cases h8 : c.toNat < 32
                  · have hdiv : c.toNat / 16 < 16 := by omega
                    have hmod : c.toNat % 16 < 16 := Nat.mod_lt _ (by norm_num)
                    show parseStringBody (escapeChar c ++ escapeChars cs ++ '"' :: rest) = _
                    rw [escapeChar, if_neg h1, if_neg h2, if_neg h3, if_neg h4,
                      if_neg h5, if_neg h6, if_neg h7, if_pos h8]
                    simp only [List.cons_append, List.nil_append]
                    rw [psb_escU]
                    rw [show hexVal '0' = some 0 from rfl,
                      hexVal_hexDigitChar _ hdiv, hexVal_hexDigitChar _ hmod]
                    have hc : 4096 * 0 + 256 * 0 + 16 * (c.toNat / 16) + c.toNat % 16
                        = c.toNat := by omega
                    simp only [hc, ih, Char.ofNat_toNat]
                    rfl
                  · show parseStringBody (escapeChar c ++ escapeChars cs ++ '"' :: rest) = _
                    rw [escapeChar, if_neg h1, if_neg h2, if_neg h3, if_neg h4,
                      if_neg h5, if_neg h6, if_neg h7, if_neg h8]
                    simp only [List.cons_append, List.nil_append]
                    rw [psb_plain c _ h1 h2 h8]
                    simp [ih]
lemma skipWs_cons (c : Char) (l : List Char)
    (h : ¬ (c = ' ' ∨ c = '\t' ∨ c = '\n' ∨ c = '\r')) : skipWs (c :: l) = c :: l := by
  rw [skipWs.eq_def]
  simp [h]

lemma parseVal_quote (fuel : Nat) (l : List Char) :
    parseVal (fuel + 1) ('"' :: l)
      = (parseStringBody l).map (fun p => (.str (String.mk p.1), p.2)) := rfl

lemma parseVal_lbrack (fuel : Nat) (l : List Char) :
    parseVal (fuel + 1) ('[' :: l)
      = (match skipWs l with
         | ']' :: rest2 => some (.arr [], rest2)
         | l2 => (parseElems fuel l2).map (fun (p : List JsVal × List Char) => (JsVal.arr p.1, p.2))) := rfl

lemma parseElems_succ (fuel : Nat) (l : List Char) :
    parseElems (fuel + 1) l
      = (match parseVal fuel l with
         | none => none
         | some (v, rest) =>
           match skipWs rest with
           | ']' :: rest2 => some ([v], rest2)
           | ',' :: rest2 => (parseElems fuel rest2).map (fun p => (v :: p.1, p.2))
           | _ => none) := rfl

lemma parseVal_stringLit (fuel : Nat) (s : String) (rest : List Char) :
    parseVal (fuel + 1) (stringLit s ++ rest) = some (.str s, rest) := by
  have hshape : stringLit s ++ rest = '"' :: (escapeChars s.toList ++ '"' :: rest) := by
    simp [stringLit]
  rw [hshape, parseVal_quote, parseStringBody_escape]
  rfl

lemma parseVal_arr1str (f : Nat) (s : String) (rest : List Char) :
    parseVal (f + 3) ('[' :: (stringLit s ++ (']' :: rest))) = some (.arr [.str s], rest) := by
  have hq : stringLit s ++ (']' :: rest)
      = '"' :: (escapeChars s.toList ++ '"' :: ']' :: rest) := by
    simp [stringLit]
  rw [show f + 3 = (f + 2) + 1 from rfl, parseVal_lbrack, hq,
    skipWs_cons _ _ (by decide)]
  show (parseElems (f + 2) ('"' :: (escapeChars s.toList ++ '"' :: ']' :: rest))).map
      (fun p => (JsVal.arr p.1, p.2)) = _
  rw [show f + 2 = (f + 1) + 1 from rfl, parseElems_succ, parseVal_quote,
    parseStringBody_escape]
  show (match skipWs (']' :: rest) with
        | ']' :: rest2 => some ([JsVal.str (String.mk s.toList)], rest2)
        | ',' :: rest2 =>
          (parseElems (f + 1) rest2).map
            (fun (p : List JsVal × List Char) =>
              (JsVal.str (String.mk s.toList) :: p.1, p.2))
        | _ => none).map (fun (p : List JsVal × List Char) => (JsVal.arr p.1, p.2)) = _
  rw [skipWs_cons _ _ (by decide)]
  rfl

lemma jsonParse_wrap (s : String) :
    jsonParse (jsonStringify (.arr [.str s])) = some (.arr [.str s]) := by
  have hchars : stringifyVal (.arr [.str s]) = '[' :: (stringLit s ++ (']' :: [])) := by
    simp [stringifyVal, stringifyElems, stringifySepElems]
  have hlen : (jsonStringify (.arr [.str s])).length + 1
      = ((escapeChars s.toList).length + 2) + 3 := by
    simp [jsonStringify, hchars, String.length, stringLit]
  rw [jsonParse, hlen]
  have htl : (jsonStringify (.arr [.str s])).toList
      = '[' :: (stringLit s ++ (']' :: [])) := by
    simp [jsonStringify, hchars, String.toList]
  rw [htl, parseVal_arr1str ((escapeChars s.toList).length + 2) s []]
  rfl

end Backend

namespace Backend

/-! ## Claims -/


/-- Claim C9: an authenticated import of the empty batch succeeds with
`imported: 0` and persists nothing. -/
theorem claim_C9_empty_import (env : Env) (st : ServerState) (sid uid : Nat)
    (uname : String)
    (hs : sessionOf st.sess (some sid) = ⟨some uid, some uname⟩)
    (huid : uid ≠ 0) :
    (importHandler env st (some sid) (.obj [("games", .arr [])])).resp
        = ⟨200, .obj [("imported", .num "0")]⟩ ∧
    (importHandler env st (some sid) (.obj [("games", .arr [])])).st.db.games
        = st.db.games ∧
    (importHandler env st (some sid) (.obj [("games", .arr [])])).st.db.users
        = st.db.users ∧
    (importHandler env st (some sid) (.obj [("games", .arr [])])).st.sess
        = st.sess := by
  simp [importHandler, hs, userIdTruthy, huid, bodyOrEmpty, jsTruthy, getField,
    insertGamesBulk, runGameInserts]
  decide

theorem claim_C9_witness :
    sessionOf aliceSt.sess (some 0) = ⟨some 1, some "alice"⟩ ∧ (1 : Nat) ≠ 0 ∧
    ((importHandler envOk aliceSt (some 0) (.obj [("games", .arr [])])).resp
        = ⟨200, .obj [("imported", .num "0")]⟩ ∧
     (importHandler envOk aliceSt (some 0) (.obj [("games", .arr [])])).st.db.games
        = aliceSt.db.games ∧
     (importHandler envOk aliceSt (some 0) (.obj [("games", .arr [])])).st.db.users
        = aliceSt.db.users ∧
     (importHandler envOk aliceSt (some 0) (.obj [("games", .arr [])])).st.sess
        = aliceSt.sess) :=
  ⟨rfl, by decide, claim_C9_empty_import envOk aliceSt 0 1 "alice" rfl (by decide)⟩

/-- Claim C6: a login for a nonexistent user and a login with a failing hash
comparison produce identical responses (401 `invalid_credentials`). -/
theorem claim_C6_indistinguishable_login_failure
    (env1 env2 : Env) (st1 st2 : ServerState) (c1 c2 : Option Nat)
    (u1 p1 u2 p2 : String) (user : UserRow)
    (hu1 : u1 ≠ "") (hp1 : p1 ≠ "") (hu2 : u2 ≠ "") (hp2 : p2 ≠ "")
    (hnone : findUserByName st1.db u1 = none)
    (hfind : findUserByName st2.db u2 = some user)
    (hcmp : bcryptCompare p2 user.password_hash = false) :
    (loginHandler env1 st1 c1 (credBody u1 p1)).resp
        = ⟨401, errBody "invalid_credentials"⟩ ∧
    (loginHandler env2 st2 c2 (credBody u2 p2)).resp
        = ⟨401, errBody "invalid_credentials"⟩ ∧
    (loginHandler env1 st1 c1 (credBody u1 p1)).resp
        = (loginHandler env2 st2 c2 (credBody u2 p2)).resp := by
  have h1 : (loginHandler env1 st1 c1 (credBody u1 p1)).resp
      = ⟨401, errBody "invalid_credentials"⟩ := by
    simp [loginHandler, credBody, bodyOrEmpty, jsTruthy, getField, jsTruthyOpt,
      hu1, hp1, valOf, findUserByParam, pgTextParam, hnone]
  have h2 : (loginHandler env2 st2 c2 (credBody u2 p2)).resp
      = ⟨401, errBody "invalid_credentials"⟩ := by
    simp [loginHandler, credBody, bodyOrEmpty, jsTruthy, getField, jsTruthyOpt,
      hu2, hp2, valOf, findUserByParam, pgTextParam, hfind, hcmp]
  exact ⟨h1, h2, h1.trans h2.symm⟩

theorem claim_C6_witness :
    ("bob" : String) ≠ "" ∧ ("pw" : String) ≠ "" ∧
    ("alice" : String) ≠ "" ∧ ("wrong" : String) ≠ "" ∧
    findUserByName st0.db "bob" = none ∧
    findUserByName aliceSt.db "alice" = some ⟨1, "alice", bcryptHash "secret123"⟩ ∧
    bcryptCompare "wrong" (bcryptHash "secret123") = false ∧
    ((loginHandler envOk st0 none (credBody "bob" "pw")).resp
        = ⟨401, errBody "invalid_credentials"⟩ ∧
     (loginHandler envOk aliceSt none (credBody "alice" "wrong")).resp
        = ⟨401, errBody "invalid_credentials"⟩ ∧
     (loginHandler envOk st0 none (credBody "bob" "pw")).resp
        = (loginHandler envOk aliceSt none (credBody "alice" "wrong")).resp) :=
  ⟨by decide, by decide, by decide, by decide, rfl, rfl, rfl,
   claim_C6_indistinguishable_login_failure envOk envOk st0 aliceSt none none
     "bob" "pw" "alice" "wrong" ⟨1, "alice", bcryptHash "secret123"⟩
     (by decide) (by decide) (by decide) (by decide) rfl rfl rfl⟩

/-- Claim C10: whenever register does not succeed (any non-201 outcome:
invalid input 400, duplicate 409, hashing/storage error 500), the whole
server state - in particular the session store, the identifier generator and
the client's cookie - is exactly as before; no regeneration, no identity
binding.  Stated for both servers. -/
theorem claim_C10_register_failure_session_unchanged
    (env : Env) (st : ServerState) (cookie : Option Nat) (body : JsVal) :
    ((registerHandler env st cookie body).resp.status ≠ 201 →
      (registerHandler env st cookie body).st = st ∧
      (registerHandler env st cookie body).cookie = cookie) ∧
    ((registerHandlerDual env st cookie body).resp.status ≠ 201 →
      (registerHandlerDual env st cookie body).st = st ∧
      (registerHandlerDual env st cookie body).cookie = cookie) := by
  constructor
  · unfold registerHandler
    dsimp only
    split
    · intro _; exact ⟨rfl, rfl⟩
    · split
      · intro _; exact ⟨rfl, rfl⟩
      · split
        · intro _; exact ⟨rfl, rfl⟩
        · split
          · intro _; exact ⟨rfl, rfl⟩
          · intro h; exact absurd rfl h
  · unfold registerHandlerDual
    dsimp only
    split
    · intro _; exact ⟨rfl, rfl⟩
    · split
      · intro _; exact ⟨rfl, rfl⟩
      · split
        · split
          · intro _; exact ⟨rfl, rfl⟩
          · split
            · intro _; exact ⟨rfl, rfl⟩
            · intro h; exact absurd rfl h
        · intro _; exact ⟨rfl, rfl⟩

theorem claim_C10_witness :
    ((registerHandler envOk aliceSt none (credBody "alice" "x")).resp.status ≠ 201 ∧
     (registerHandler envOk aliceSt none (credBody "alice" "x")).st = aliceSt ∧
     (registerHandler envOk aliceSt none (credBody "alice" "x")).cookie = none) ∧
    ((registerHandlerDual envOk aliceSt none (credBody "alice" "x")).resp.status ≠ 201 ∧
     (registerHandlerDual envOk aliceSt none (credBody "alice" "x")).st = aliceSt ∧
     (registerHandlerDual envOk aliceSt none (credBody "alice" "x")).cookie = none) :=
  ⟨⟨by decide,
    (claim_C10_register_failure_session_unchanged envOk aliceSt none
      (credBody "alice" "x")).1 (by decide)⟩,
   ⟨by decide,
    (claim_C10_register_failure_session_unchanged envOk aliceSt none
      (credBody "alice" "x")).2 (by decide)⟩⟩

/-- A successful register computed explicitly: fresh user row appended, fresh
session identifier bound. -/
lemma register_success (env : Env) (st : ServerState) (cookie : Option Nat)
    (u p : String) (hu : u ≠ "") (hp : p ≠ "")
    (hnone : findUserByName st.db u = none)
    (hhash : env.hashFails p = false) (hins : env.insertUserFails u = false) :
    registerHandler env st cookie (credBody u p) =
      ⟨⟨201, .obj [("username", .str u)]⟩,
       ⟨{ st.db with
            users := st.db.users ++ [⟨st.db.nextUserId, u, bcryptHash p⟩],
            nextUserId := st.db.nextUserId + 1 },
        (regenerateAndBind st.sess cookie st.db.nextUserId u).1⟩,
       some st.sess.nextSid⟩ := by
  simp [registerHandler, credBody, bodyOrEmpty, jsTruthy, getField, jsTruthyOpt,
    isStringOpt, strOf, hu, hp, hnone, hhash, hins, insertUser, regenerateAndBind]

/-- After inserting a user with a fresh username, lookup finds exactly that
row. -/
lemma findUserByName_after_insert (db : Db) (u h1 : String)
    (hnone : findUserByName db u = none) :
    findUserByName
      { db with
          users := db.users ++ [⟨db.nextUserId, u, h1⟩],
          nextUserId := db.nextUserId + 1 } u
      = some ⟨db.nextUserId, u, h1⟩ := by
  unfold findUserByName at *
  rw [List.find?_append, hnone]
  simp

/-- A successful dual-mode register computed explicitly: same outcome shape
as the Postgres-only one for valid string credentials. -/
lemma registerDual_success (env : Env) (st : ServerState) (cookie : Option Nat)
    (u p : String) (hu : u ≠ "") (hp : p ≠ "")
    (hnone : findUserByName st.db u = none)
    (hhash : env.hashFails p = false) (hins : env.insertUserFails u = false) :
    registerHandlerDual env st cookie (credBody u p) =
      ⟨⟨201, .obj [("username", .str u)]⟩,
       ⟨{ st.db with
            users := st.db.users ++ [⟨st.db.nextUserId, u, bcryptHash p⟩],
            nextUserId := st.db.nextUserId + 1 },
        (regenerateAndBind st.sess cookie st.db.nextUserId u).1⟩,
       some st.sess.nextSid⟩ := by
  simp [registerHandlerDual, credBody, bodyOrEmpty, jsTruthy, getField,
    jsTruthyOpt, valOf, findUserByParam, pgTextParam, strOf, hu, hp, hnone,
    hhash, hins, insertUser, regenerateAndBind]

/-- Claim C4: for a username not yet taken, two sequential valid register
requests yield 201 then 409 `username_taken`, and exactly one row with that
username exists afterwards - in both servers. -/
theorem claim_C4_duplicate_register (env : Env) (st : ServerState)
    (cookie : Option Nat) (u p p2 : String)
    (hu : u ≠ "") (hp : p ≠ "") (hp2 : p2 ≠ "")
    (hnone : findUserByName st.db u = none)
    (hhash : env.hashFails p = false) (hins : env.insertUserFails u = false) :
    (registerHandler env st cookie (credBody u p)).resp
        = ⟨201, .obj [("username", .str u)]⟩ ∧
    (registerHandler env (registerHandler env st cookie (credBody u p)).st
        (registerHandler env st cookie (credBody u p)).cookie (credBody u p2)).resp
        = ⟨409, errBody "username_taken"⟩ ∧
    ((registerHandler env (registerHandler env st cookie (credBody u p)).st
        (registerHandler env st cookie (credBody u p)).cookie
        (credBody u p2)).st.db.users.filter
          (fun r => r.username == u)).length = 1 ∧
    (registerHandlerDual env st cookie (credBody u p)).resp
        = ⟨201, .obj [("username", .str u)]⟩ ∧
    (registerHandlerDual env (registerHandlerDual env st cookie (credBody u p)).st
        (registerHandlerDual env st cookie (credBody u p)).cookie
        (credBody u p2)).resp
        = ⟨409, errBody "username_taken"⟩ ∧
    ((registerHandlerDual env (registerHandlerDual env st cookie (credBody u p)).st
        (registerHandlerDual env st cookie (credBody u p)).cookie
        (credBody u p2)).st.db.users.filter
          (fun r => r.username == u)).length = 1 := by
  have hfind := findUserByName_after_insert st.db u (bcryptHash p) hnone
  have hfil : st.db.users.filter (fun r => r.username == u) = [] := by
    rw [List.filter_eq_nil_iff]
    simpa [findUserByName] using List.find?_eq_none.mp hnone
  refine ⟨?_, ?_, ?_, ?_, ?_, ?_⟩
  · rw [register_success env st cookie u p hu hp hnone hhash hins]
  · rw [register_success env st cookie u p hu hp hnone hhash hins]
    simp [registerHandler, credBody, bodyOrEmpty, jsTruthy, getField,
      jsTruthyOpt, isStringOpt, strOf, hu, hp2, hfind]
  · rw [register_success env st cookie u p hu hp hnone hhash hins]
    have hdup : (registerHandler env
        ⟨{ st.db with
             users := st.db.users ++ [⟨st.db.nextUserId, u, bcryptHash p⟩],
             nextUserId := st.db.nextUserId + 1 },
          (regenerateAndBind st.sess cookie st.db.nextUserId u).1⟩
        (some st.sess.nextSid) (credBody u p2)).st
      = ⟨{ st.db with
             users := st.db.users ++ [⟨st.db.nextUserId, u, bcryptHash p⟩],
             nextUserId := st.db.nextUserId + 1 },
          (regenerateAndBind st.sess cookie st.db.nextUserId u).1⟩ := by
      simp [registerHandler, credBody, bodyOrEmpty, jsTruthy, getField,
        jsTruthyOpt, isStringOpt, strOf, hu, hp2, hfind]
    rw [hdup]
    simp [List.filter_append, hfil]
  · rw [registerDual_success env st cookie u p hu hp hnone hhash hins]
  · rw [registerDual_success env st cookie u p hu hp hnone hhash hins]
    simp [registerHandlerDual, credBody, bodyOrEmpty, jsTruthy, getField,
      jsTruthyOpt, valOf, findUserByParam, pgTextParam, strOf, hu, hp2, hfind]
  · rw [registerDual_success env st cookie u p hu hp hnone hhash hins]
    have hdup : (registerHandlerDual env
        ⟨{ st.db with
             users := st.db.users ++ [⟨st.db.nextUserId, u, bcryptHash p⟩],
             nextUserId := st.db.nextUserId + 1 },
          (regenerateAndBind st.sess cookie st.db.nextUserId u).1⟩
        (some st.sess.nextSid) (credBody u p2)).st
      = ⟨{ st.db with
             users := st.db.users ++ [⟨st.db.nextUserId, u, bcryptHash p⟩],
             nextUserId := st.db.nextUserId + 1 },
          (regenerateAndBind st.sess cookie st.db.nextUserId u).1⟩ := by
      simp [registerHandlerDual, credBody, bodyOrEmpty, jsTruthy, getField,
        jsTruthyOpt, valOf, findUserByParam, pgTextParam, strOf, hu, hp2, hfind]
    rw [hdup]
    simp [List.filter_append, hfil]

theorem claim_C4_witness :
    ("bob" : String) ≠ "" ∧ ("pw1" : String) ≠ "" ∧ ("pw2" : String) ≠ "" ∧
    findUserByName st0.db "bob" = none ∧
    envOk.hashFails "pw1" = false ∧ envOk.insertUserFails "bob" = false ∧
    ((registerHandler envOk st0 none (credBody "bob" "pw1")).resp
        = ⟨201, .obj [("username", .str "bob")]⟩ ∧
     (registerHandler envOk (registerHandler envOk st0 none (credBody "bob" "pw1")).st
        (registerHandler envOk st0 none (credBody "bob" "pw1")).cookie
        (credBody "bob" "pw2")).resp = ⟨409, errBody "username_taken"⟩ ∧
     ((registerHandler envOk (registerHandler envOk st0 none (credBody "bob" "pw1")).st
        (registerHandler envOk st0 none (credBody "bob" "pw1")).cookie
        (credBody "bob" "pw2")).st.db.users.filter
          (fun r => r.username == "bob")).length = 1 ∧
     (registerHandlerDual envOk st0 none (credBody "bob" "pw1")).resp
        = ⟨201, .obj [("username", .str "bob")]⟩ ∧
     (registerHandlerDual envOk
        (registerHandlerDual envOk st0 none (credBody "bob" "pw1")).st
        (registerHandlerDual envOk st0 none (credBody "bob" "pw1")).cookie
        (credBody "bob" "pw2")).resp = ⟨409, errBody "username_taken"⟩ ∧
     ((registerHandlerDual envOk
        (registerHandlerDual envOk st0 none (credBody "bob" "pw1")).st
        (registerHandlerDual envOk st0 none (credBody "bob" "pw1")).cookie
        (credBody "bob" "pw2")).st.db.users.filter
          (fun r => r.username == "bob")).length = 1) :=
  ⟨by decide, by decide, by decide, rfl, rfl, rfl,
   claim_C4_duplicate_register envOk st0 none "bob" "pw1" "pw2"
     (by decide) (by decide) (by decide) rfl rfl rfl⟩

/-- Claim C5: login with the same credentials right after a successful
register succeeds with 200 and returns the same username. -/
theorem claim_C5_login_after_register (env env2 : Env) (st : ServerState)
    (cookie cookie2 : Option Nat) (u p : String)
    (hu : u ≠ "") (hp : p ≠ "")
    (hnone : findUserByName st.db u = none)
    (hhash : env.hashFails p = false) (hins : env.insertUserFails u = false) :
    (registerHandler env st cookie (credBody u p)).resp.status = 201 ∧
    (loginHandler env2 (registerHandler env st cookie (credBody u p)).st
        cookie2 (credBody u p)).resp = ⟨200, .obj [("username", .str u)]⟩ := by
  rw [register_success env st cookie u p hu hp hnone hhash hins]
  have hfind := findUserByName_after_insert st.db u (bcryptHash p) hnone
  refine ⟨rfl, ?_⟩
  simp [loginHandler, credBody, bodyOrEmpty, jsTruthy, getField, jsTruthyOpt,
    valOf, findUserByParam, pgTextParam, hu, hp, hfind, bcryptCompare]

theorem claim_C5_witness :
    ("bob" : String) ≠ "" ∧ ("pw1" : String) ≠ "" ∧
    findUserByName st0.db "bob" = none ∧
    envOk.hashFails "pw1" = false ∧ envOk.insertUserFails "bob" = false ∧
    ((registerHandler envOk st0 none (credBody "bob" "pw1")).resp.status = 201 ∧
     (loginHandler envOk (registerHandler envOk st0 none (credBody "bob" "pw1")).st
        none (credBody "bob" "pw1")).resp
        = ⟨200, .obj [("username", .str "bob")]⟩) :=
  ⟨by decide, by decide, rfl, rfl, rfl,
   claim_C5_login_after_register envOk envOk st0 none none "bob" "pw1"
     (by decide) (by decide) rfl rfl rfl⟩

/-- Claim C3: when the transactional bulk insert fails - in either server -
the import request answers 500 `internal`, the database is exactly as
before, and the game list seen through `GET /api/games` is unchanged; no
partial import is ever observable. -/
theorem claim_C3_bulk_rollback (env : Env) (st : ServerState) (sid uid : Nat)
    (uname : String) (games : List JsVal)
    (hs : sessionOf st.sess (some sid) = ⟨some uid, some uname⟩)
    (huid : uid ≠ 0) :
    (∀ e, insertGamesBulk env st.db uid games = .error e →
      (importHandler env st (some sid) (.obj [("games", .arr games)])).resp
          = ⟨500, errBody "internal"⟩ ∧
      (importHandler env st (some sid) (.obj [("games", .arr games)])).st = st ∧
      gamesHandler (importHandler env st (some sid)
          (.obj [("games", .arr games)])).st (some sid)
        = gamesHandler st (some sid)) ∧
    (∀ e, insertGamesBulkDual env st.db uid games = .error e →
      (importHandlerDual env st (some sid) (.obj [("games", .arr games)])).resp
          = ⟨500, errBody "internal"⟩ ∧
      (importHandlerDual env st (some sid) (.obj [("games", .arr games)])).st = st ∧
      gamesHandler (importHandlerDual env st (some sid)
          (.obj [("games", .arr games)])).st (some sid)
        = gamesHandler st (some sid)) := by
  constructor
  · intro e herr
    have h : importHandler env st (some sid) (.obj [("games", .arr games)])
        = ⟨⟨500, errBody "internal"⟩, st, some sid⟩ := by
      simp [importHandler, hs, userIdTruthy, huid, bodyOrEmpty, jsTruthy,
        getField, herr]
    rw [h]
    exact ⟨rfl, rfl, rfl⟩
  · intro e herr
    have h : importHandlerDual env st (some sid) (.obj [("games", .arr games)])
        = ⟨⟨500, errBody "internal"⟩, st, some sid⟩ := by
      simp [importHandlerDual, hs, userIdTruthy, huid, bodyOrEmpty, jsTruthy,
        getField, herr]
    rw [h]
    exact ⟨rfl, rfl, rfl⟩

theorem claim_C3_witness :
    sessionOf aliceSt.sess (some 0) = ⟨some 1, some "alice"⟩ ∧ (1 : Nat) ≠ 0 ∧
    insertGamesBulk envFailB aliceSt.db 1
        [.obj [("pgn", .str "a")], .obj [("pgn", .str "b")]]
      = .error "insert_failed" ∧
    insertGamesBulkDual envFailB aliceSt.db 1
        [.obj [("pgn", .str "a")], .obj [("pgn", .str "b")]]
      = .error "insert_failed" ∧
    ((importHandler envFailB aliceSt (some 0)
        (.obj [("games", .arr [.obj [("pgn", .str "a")], .obj [("pgn", .str "b")]])])).resp
        = ⟨500, errBody "internal"⟩ ∧
     (importHandler envFailB aliceSt (some 0)
        (.obj [("games", .arr [.obj [("pgn", .str "a")], .obj [("pgn", .str "b")]])])).st
        = aliceSt ∧
     gamesHandler (importHandler envFailB aliceSt (some 0)
        (.obj [("games", .arr [.obj [("pgn", .str "a")], .obj [("pgn", .str "b")]])])).st
        (some 0)
       = gamesHandler aliceSt (some 0)) ∧
    ((importHandlerDual envFailB aliceSt (some 0)
        (.obj [("games", .arr [.obj [("pgn", .str "a")], .obj [("pgn", .str "b")]])])).resp
        = ⟨500, errBody "internal"⟩ ∧
     (importHandlerDual envFailB aliceSt (some 0)
        (.obj [("games", .arr [.obj [("pgn", .str "a")], .obj [("pgn", .str "b")]])])).st
        = aliceSt ∧
     gamesHandler (importHandlerDual envFailB aliceSt (some 0)
        (.obj [("games", .arr [.obj [("pgn", .str "a")], .obj [("pgn", .str "b")]])])).st
        (some 0)
       = gamesHandler aliceSt (some 0)) :=
  ⟨rfl, by decide, rfl, rfl,
   (claim_C3_bulk_rollback envFailB aliceSt 0 1 "alice"
     [.obj [("pgn", .str "a")], .obj [("pgn", .str "b")]]
     rfl (by decide)).1 "insert_failed" rfl,
   (claim_C3_bulk_rollback envFailB aliceSt 0 1 "alice"
     [.obj [("pgn", .str "a")], .obj [("pgn", .str "b")]]
     rfl (by decide)).2 "insert_failed" rfl⟩

/-- Claim C7, counterexample: the dual-mode server's register validation
passes the truthy non-string inputs `username: 1`, `password: 1`, so the
request does not fail with 400 `InvalidInput`; it reaches `bcrypt.hash`,
which rejects non-string data, and fails 500 `internal` (no user created). -/
theorem claim_C7_counterexample :
    isStringOpt (getField (.obj [("username", .num "1"), ("password", .num "1")])
        "username") = false ∧
    (registerHandlerDual envOk st0 none
        (.obj [("username", .num "1"), ("password", .num "1")])).resp.status = 500 ∧
    ¬ (registerHandlerDual envOk st0 none
        (.obj [("username", .num "1"), ("password", .num "1")])).resp.status = 400 ∧
    (registerHandlerDual envOk st0 none
        (.obj [("username", .num "1"), ("password", .num "1")])).st.db.users = [] := by
  refine ⟨rfl, rfl, by decide, rfl⟩

/-- Claim C7, amended: in the Postgres-only server every register whose
username or password is missing, empty (falsy) or not a string fails 400
without touching any state; the dual-mode server rejects this way only
missing/falsy inputs. -/
theorem claim_C7_amended (env : Env) (st : ServerState) (cookie : Option Nat)
    (body : JsVal) :
    ((jsTruthyOpt (getField (bodyOrEmpty body) "username") = false ∨
      jsTruthyOpt (getField (bodyOrEmpty body) "password") = false ∨
      isStringOpt (getField (bodyOrEmpty body) "username") = false ∨
      isStringOpt (getField (bodyOrEmpty body) "password") = false) →
      registerHandler env st cookie body
        = ⟨⟨400, errBody "username_and_password_required"⟩, st, cookie⟩) ∧
    ((jsTruthyOpt (getField (bodyOrEmpty body) "username") = false ∨
      jsTruthyOpt (getField (bodyOrEmpty body) "password") = false) →
      registerHandlerDual env st cookie body
        = ⟨⟨400, errBody "username_and_password_required"⟩, st, cookie⟩) := by
  constructor
  · intro hbad
    rcases hbad with h | h | h | h <;> simp [registerHandler, h]
  · intro hbad
    rcases hbad with h | h <;> simp [registerHandlerDual, h]

theorem claim_C7_amended_witness :
    (jsTruthyOpt (getField (bodyOrEmpty (.obj [("password", .str "pw")]))
        "username") = false ∨
     jsTruthyOpt (getField (bodyOrEmpty (.obj [("password", .str "pw")]))
        "password") = false ∨
     isStringOpt (getField (bodyOrEmpty (.obj [("password", .str "pw")]))
        "username") = false ∨
     isStringOpt (getField (bodyOrEmpty (.obj [("password", .str "pw")]))
        "password") = false) ∧
    registerHandler envOk st0 none (.obj [("password", .str "pw")])
      = ⟨⟨400, errBody "username_and_password_required"⟩, st0, none⟩ ∧
    registerHandlerDual envOk st0 none (.obj [("password", .str "pw")])
      = ⟨⟨400, errBody "username_and_password_required"⟩, st0, none⟩ :=
  ⟨Or.inl rfl,
   (claim_C7_amended envOk st0 none (.obj [("password", .str "pw")])).1 (Or.inl rfl),
   (claim_C7_amended envOk st0 none (.obj [("password", .str "pw")])).2 (Or.inl rfl)⟩


lemma lookup_filter_self (store : List (Nat × SessionData)) (c : Nat) :
    (store.filter (fun e => e.1 != c)).find? (fun e => e.1 == c) = none := by
  apply List.find?_eq_none.mpr
  intro x hx
  have hne := (List.mem_filter.mp hx).2
  simp at hne
  simp [hne]

lemma lookup_filter_ne (store : List (Nat × SessionData)) (c sid : Nat)
    (h : sid ≠ c) :
    (store.filter (fun e => e.1 != c)).find? (fun e => e.1 == sid)
      = store.find? (fun e => e.1 == sid) := by
  induction store with
  | nil => rfl
  | cons a l ih =>
    by_cases hac : a.1 = c
    · have h2 : (c == sid) = false := by
        simp
        exact fun hh => h hh.symm
      simp [List.filter_cons, hac, List.find?_cons, h2, ih]
    · by_cases has : a.1 = sid
      · simp [List.filter_cons, hac, List.find?_cons, has, h]
      · simp [List.filter_cons, hac, List.find?_cons, has, ih]

lemma lookupSession_regen_new (sess : Sessions) (cookie : Option Nat)
    (uid : Nat) (un : String) :
    lookupSession (regenerateAndBind sess cookie uid un).1 sess.nextSid
      = some ⟨some uid, some un⟩ := by
  simp [lookupSession, regenerateAndBind, List.find?_cons]

lemma lookupSession_regen_other (sess : Sessions) (cookie : Option Nat)
    (uid : Nat) (un : String) (sid : Nat) (h : sid ≠ sess.nextSid) :
    lookupSession (regenerateAndBind sess cookie uid un).1 sid = none ∨
    lookupSession (regenerateAndBind sess cookie uid un).1 sid
      = lookupSession sess sid := by
  have hh : (sess.nextSid == sid) = false := by
    simp
    exact fun hx => h hx.symm
  unfold lookupSession regenerateAndBind
  dsimp only
  rw [List.find?_cons]
  simp only [hh]
  cases cookie with
  | none => right; rfl
  | some c =>
    by_cases hc : sid = c
    · left
      subst hc
      rw [lookup_filter_self]
      rfl
    · right
      rw [lookup_filter_ne _ _ _ hc]

/-- A register answering 201 regenerated the session and bound an identity
on the fresh identifier. -/
lemma register_201_shape (env : Env) (st : ServerState) (cookie : Option Nat)
    (body : JsVal) (h : (registerHandler env st cookie body).resp.status = 201) :
    ∃ uid un,
      (registerHandler env st cookie body).st.sess
        = (regenerateAndBind st.sess cookie uid un).1 ∧
      (registerHandler env st cookie body).cookie = some st.sess.nextSid := by
  revert h
  unfold registerHandler
  dsimp only
  split
  · intro h; simp at h
  · split
    · intro h; simp at h
    · split
      · intro h; simp at h
      · split
        · intro h; simp at h
        · intro _; exact ⟨_, _, rfl, rfl⟩

/-- A login answering 200 regenerated the session and bound an identity on
the fresh identifier. -/
lemma login_200_shape (env : Env) (st : ServerState) (cookie : Option Nat)
    (body : JsVal) (h : (loginHandler env st cookie body).resp.status = 200) :
    ∃ uid un,
      (loginHandler env st cookie body).st.sess
        = (regenerateAndBind st.sess cookie uid un).1 ∧
      (loginHandler env st cookie body).cookie = some st.sess.nextSid := by
  revert h
  unfold loginHandler
  dsimp only
  split
  · intro h; simp at h
  · split
    · intro h; simp at h
    · split
      · split
        · intro _; exact ⟨_, _, rfl, rfl⟩
        · intro h; simp at h
      · intro h; simp at h

/-- A dual-mode register answering 201, likewise. -/
lemma registerDual_201_shape (env : Env) (st : ServerState)
    (cookie : Option Nat) (body : JsVal)
    (h : (registerHandlerDual env st cookie body).resp.status = 201) :
    ∃ uid un,
      (registerHandlerDual env st cookie body).st.sess
        = (regenerateAndBind st.sess cookie uid un).1 ∧
      (registerHandlerDual env st cookie body).cookie = some st.sess.nextSid := by
  revert h
  unfold registerHandlerDual
  dsimp only
  split
  · intro h; simp at h
  · split
    · intro h; simp at h
    · split
      · split
        · intro h; simp at h
        · split
          · intro h; simp at h
          · intro _; exact ⟨_, _, rfl, rfl⟩
      · intro h; simp at h

/-- Regeneration plus binding satisfies the freshness property under the
session invariants. -/
lemma regen_freshBind (st : ServerState) (cookie : Option Nat) (out : Outcome)
    (uid : Nat) (un : String)
    (hinv : sessInvariant st.sess) (hck : cookieIssued st.sess cookie)
    (hsess : out.st.sess = (regenerateAndBind st.sess cookie uid un).1)
    (hcook : out.cookie = some st.sess.nextSid) :
    freshRegeneratedBind st cookie out := by
  refine ⟨st.sess.nextSid, hcook, ?_, ?_, ⟨uid, un, ?_⟩, ?_⟩
  · intro old hol
    subst hol
    exact Nat.ne_of_lt hck
  · intro e he
    exact Nat.ne_of_lt (hinv e he)
  · rw [hsess]
    exact lookupSession_regen_new st.sess cookie uid un
  · intro sid hne
    rw [hsess]
    exact lookupSession_regen_other st.sess cookie uid un sid hne

/-- Claim C1: every successful register (both servers) and every successful
login binds identity only immediately after a freshly regenerated session
identifier; the identifier in effect afterwards differs from the cookie the
client held and from every identifier in the store, and no pre-existing
identifier gains identity. -/
theorem claim_C1_fresh_regenerated_identity (env : Env) (st : ServerState)
    (cookie : Option Nat) (body : JsVal)
    (hinv : sessInvariant st.sess) (hck : cookieIssued st.sess cookie) :
    ((registerHandler env st cookie body).resp.status = 201 →
      freshRegeneratedBind st cookie (registerHandler env st cookie body)) ∧
    ((loginHandler env st cookie body).resp.status = 200 →
      freshRegeneratedBind st cookie (loginHandler env st cookie body)) ∧
    ((registerHandlerDual env st cookie body).resp.status = 201 →
      freshRegeneratedBind st cookie (registerHandlerDual env st cookie body)) := by
  refine ⟨fun h => ?_, fun h => ?_, fun h => ?_⟩
  · obtain ⟨uid, un, hs, hc⟩ := register_201_shape env st cookie body h
    exact regen_freshBind st cookie _ uid un hinv hck hs hc
  · obtain ⟨uid, un, hs, hc⟩ := login_200_shape env st cookie body h
    exact regen_freshBind st cookie _ uid un hinv hck hs hc
  · obtain ⟨uid, un, hs, hc⟩ := registerDual_201_shape env st cookie body h
    exact regen_freshBind st cookie _ uid un hinv hck hs hc

theorem claim_C1_witness :
    sessInvariant aliceSt.sess ∧ cookieIssued aliceSt.sess (some 0) ∧
    (((registerHandler envOk aliceSt (some 0) (credBody "bob" "pw")).resp.status = 201 →
      freshRegeneratedBind aliceSt (some 0)
        (registerHandler envOk aliceSt (some 0) (credBody "bob" "pw"))) ∧
     ((loginHandler envOk aliceSt (some 0) (credBody "bob" "pw")).resp.status = 200 →
      freshRegeneratedBind aliceSt (some 0)
        (loginHandler envOk aliceSt (some 0) (credBody "bob" "pw"))) ∧
     ((registerHandlerDual envOk aliceSt (some 0) (credBody "bob" "pw")).resp.status = 201 →
      freshRegeneratedBind aliceSt (some 0)
        (registerHandlerDual envOk aliceSt (some 0) (credBody "bob" "pw")))) :=
  ⟨by simp [sessInvariant, aliceSt], by simp [cookieIssued, aliceSt],
   claim_C1_fresh_regenerated_identity envOk aliceSt (some 0) (credBody "bob" "pw")
     (by simp [sessInvariant, aliceSt]) (by simp [cookieIssued, aliceSt])⟩


lemma register_sess_cases (env : Env) (st : ServerState) (cookie : Option Nat)
    (body : JsVal) :
    (registerHandler env st cookie body).st.sess = st.sess ∨
    ∃ uid un, (registerHandler env st cookie body).st.sess
        = (regenerateAndBind st.sess cookie uid un).1 := by
  unfold registerHandler
  dsimp only
  split
  · left; rfl
  · split
    · left; rfl
    · split
      · left; rfl
      · split
        · left; rfl
        · right; exact ⟨_, _, rfl⟩

lemma login_sess_cases (env : Env) (st : ServerState) (cookie : Option Nat)
    (body : JsVal) :
    (loginHandler env st cookie body).st.sess = st.sess ∨
    ∃ uid un, (loginHandler env st cookie body).st.sess
        = (regenerateAndBind st.sess cookie uid un).1 := by
  unfold loginHandler
  dsimp only
  split
  · left; rfl
  · split
    · left; rfl
    · split
      · split
        · right; exact ⟨_, _, rfl⟩
        · left; rfl
      · left; rfl

lemma registerDual_sess_cases (env : Env) (st : ServerState)
    (cookie : Option Nat) (body : JsVal) :
    (registerHandlerDual env st cookie body).st.sess = st.sess ∨
    ∃ uid un, (registerHandlerDual env st cookie body).st.sess
        = (regenerateAndBind st.sess cookie uid un).1 := by
  unfold registerHandlerDual
  dsimp only
  split
  · left; rfl
  · split
    · left; rfl
    · split
      · split
        · left; rfl
        · split
          · left; rfl
          · right; exact ⟨_, _, rfl⟩
      · left; rfl

lemma import_sess_eq (env : Env) (st : ServerState) (cookie : Option Nat)
    (body : JsVal) : (importHandler env st cookie body).st.sess = st.sess := by
  unfold importHandler
  dsimp only
  split
  · rfl
  · split
    · split <;> rfl
    · rfl

lemma importDual_sess_eq (env : Env) (st : ServerState) (cookie : Option Nat)
    (body : JsVal) : (importHandlerDual env st cookie body).st.sess = st.sess := by
  unfold importHandlerDual
  dsimp only
  split
  · rfl
  · split
    · split <;> rfl
    · rfl

lemma games_sess_eq (st : ServerState) (cookie : Option Nat) :
    (gamesHandler st cookie).st.sess = st.sess := by
  unfold gamesHandler
  dsimp only
  split
  · rfl
  · split <;> rfl

lemma lookup_none_filter (store : List (Nat × SessionData))
    (q : Nat × SessionData → Bool) (sid : Nat)
    (h : store.find? (fun e => e.1 == sid) = none) :
    (store.filter q).find? (fun e => e.1 == sid) = none := by
  apply List.find?_eq_none.mpr
  intro x hx
  exact List.find?_eq_none.mp h x (List.mem_filter.mp hx).1

lemma lookup_none_regen (sess : Sessions) (cookie : Option Nat) (uid : Nat)
    (un : String) (sid : Nat) (hne : sid ≠ sess.nextSid)
    (h : lookupSession sess sid = none) :
    lookupSession (regenerateAndBind sess cookie uid un).1 sid = none := by
  rcases lookupSession_regen_other sess cookie uid un sid hne with h1 | h1
  · exact h1
  · rw [h1, h]

lemma regen_nextSid (sess : Sessions) (cookie : Option Nat) (uid : Nat)
    (un : String) :
    (regenerateAndBind sess cookie uid un).1.nextSid = sess.nextSid + 1 := rfl

/-- A destroyed identifier below the generator stays dead across any single
request. -/
lemma step_preserves_dead (sid : Nat) (st st' : ServerState)
    (h : serverStep st st') (hlt : sid < st.sess.nextSid)
    (hdead : lookupSession st.sess sid = none) :
    sid < st'.sess.nextSid ∧ lookupSession st'.sess sid = none := by
  cases h with
  | register env st cookie body =>
    rcases register_sess_cases env st cookie body with he | ⟨uid, un, he⟩
    · rw [he]; exact ⟨hlt, hdead⟩
    · rw [he, regen_nextSid]
      exact ⟨Nat.lt_succ_of_lt hlt,
        lookup_none_regen _ _ _ _ _ (Nat.ne_of_lt hlt) hdead⟩
  | registerDual env st cookie body =>
    rcases registerDual_sess_cases env st cookie body with he | ⟨uid, un, he⟩
    · rw [he]; exact ⟨hlt, hdead⟩
    · rw [he, regen_nextSid]
      exact ⟨Nat.lt_succ_of_lt hlt,
        lookup_none_regen _ _ _ _ _ (Nat.ne_of_lt hlt) hdead⟩
  | login env st cookie body =>
    rcases login_sess_cases env st cookie body with he | ⟨uid, un, he⟩
    · rw [he]; exact ⟨hlt, hdead⟩
    · rw [he, regen_nextSid]
      exact ⟨Nat.lt_succ_of_lt hlt,
        lookup_none_regen _ _ _ _ _ (Nat.ne_of_lt hlt) hdead⟩
  | logout st cookie =>
    refine ⟨hlt, ?_⟩
    cases cookie with
    | none => exact hdead
    | some c =>
      have hf : st.sess.store.find? (fun e => e.1 == sid) = none :=
        Option.map_eq_none'.mp hdead
      show ((st.sess.store.filter (fun e => e.1 != c)).find?
        (fun e => e.1 == sid)).map (fun e => e.2) = none
      rw [lookup_none_filter _ _ _ hf]
      rfl
  | importGames env st cookie body =>
    rw [import_sess_eq]; exact ⟨hlt, hdead⟩
  | importGamesDual env st cookie body =>
    rw [importDual_sess_eq]; exact ⟨hlt, hdead⟩
  | games st cookie =>
    rw [games_sess_eq]; exact ⟨hlt, hdead⟩

/-- Claim C8: logout destroys the session immediately; from then on, across
any sequence of further requests, `GET /api/me` with the old cookie answers
401 `not_authenticated`. -/
theorem claim_C8_logout_invalidates (st : ServerState) (sid : Nat)
    (hlt : sid < st.sess.nextSid) :
    (logoutHandler st (some sid)).resp = ⟨200, .obj [("ok", .bool true)]⟩ ∧
    (logoutHandler st (some sid)).cookie = none ∧
    lookupSession (logoutHandler st (some sid)).st.sess sid = none ∧
    ∀ st2, Relation.ReflTransGen serverStep (logoutHandler st (some sid)).st st2 →
      meHandler st2 (some sid) = ⟨401, errBody "not_authenticated"⟩ := by
  have hbase : lookupSession (logoutHandler st (some sid)).st.sess sid = none := by
    show ((st.sess.store.filter (fun e => e.1 != sid)).find?
      (fun e => e.1 == sid)).map (fun e => e.2) = none
    rw [lookup_filter_self]
    rfl
  have hkey : ∀ st2,
      Relation.ReflTransGen serverStep (logoutHandler st (some sid)).st st2 →
      sid < st2.sess.nextSid ∧ lookupSession st2.sess sid = none := by
    intro st2 h2
    induction h2 with
    | refl => exact ⟨hlt, hbase⟩
    | tail _ hbc ih => exact step_preserves_dead sid _ _ hbc ih.1 ih.2
  refine ⟨rfl, rfl, hbase, ?_⟩
  intro st2 h2
  have hdead2 := (hkey st2 h2).2
  simp [meHandler, sessionOf, hdead2, userIdTruthy]

theorem claim_C8_witness :
    0 < aliceSt.sess.nextSid ∧
    ((logoutHandler aliceSt (some 0)).resp = ⟨200, .obj [("ok", .bool true)]⟩ ∧
     (logoutHandler aliceSt (some 0)).cookie = none ∧
     lookupSession (logoutHandler aliceSt (some 0)).st.sess 0 = none ∧
     ∀ st2, Relation.ReflTransGen serverStep (logoutHandler aliceSt (some 0)).st st2 →
       meHandler st2 (some 0) = ⟨401, errBody "not_authenticated"⟩) :=
  ⟨by decide, claim_C8_logout_invalidates aliceSt 0 (by decide)⟩


lemma runGameInserts_ok (env : Env) (uid : Nat) (games : List JsVal) (gid : Nat)
    (hnn : ∀ g ∈ games, g.isNull = false)
    (hnofail : ∀ r, env.gameInsertFails r = false) :
    runGameInserts env uid games gid = .ok (builtRows env uid games gid) := by
  induction games generalizing gid with
  | nil => rfl
  | cons g rest ih =>
    have hg : g.isNull = false := hnn g (List.mem_cons_self _ _)
    simp [runGameInserts, mkGameRow, builtRows, hg, hnofail,
      ih (gid + 1) (fun g2 hg2 => hnn g2 (List.mem_cons_of_mem _ hg2))]

lemma insertGamesBulk_ok (env : Env) (db : Db) (uid : Nat) (games : List JsVal)
    (hnn : ∀ g ∈ games, g.isNull = false)
    (hnofail : ∀ r, env.gameInsertFails r = false) :
    insertGamesBulk env db uid games
      = .ok { db with
          games := db.games ++ builtRows env uid games db.nextGameId,
          nextGameId := db.nextGameId + (builtRows env uid games db.nextGameId).length } := by
  simp [insertGamesBulk, runGameInserts_ok env uid games db.nextGameId hnn hnofail]

lemma builtRows_mem (env : Env) (uid : Nat) (games : List JsVal) (gid : Nat)
    (g : JsVal) (hg : g ∈ games) :
    ∃ n, gameRowOf env uid n g ∈ builtRows env uid games gid := by
  induction games generalizing gid with
  | nil => cases hg
  | cons a rest ih =>
    rcases List.mem_cons.mp hg with rfl | hg2
    · exact ⟨gid, List.mem_cons_self _ _⟩
    · obtain ⟨n, hn⟩ := ih (gid + 1) hg2
      exact ⟨n, List.mem_cons_of_mem _ hn⟩

lemma builtRows_user (env : Env) (uid : Nat) (games : List JsVal) (gid : Nat) :
    ∀ r ∈ builtRows env uid games gid, r.user_id = uid := by
  induction games generalizing gid with
  | nil => intro r hr; cases hr
  | cons a rest ih =>
    intro r hr
    rcases List.mem_cons.mp hr with rfl | hr2
    · rfl
    · exact ih (gid + 1) r hr2

lemma storedFens_to_rowFens (env : Env) (uid n : Nat) (g : JsVal)
    (h : storedFensParses g = true) :
    rowFensParses (gameRowOf env uid n g) = true := by
  unfold rowFensParses gameRowOf
  dsimp only
  by_cases he : normalizeFens (getField g "fens") = ""
  · exfalso
    unfold storedFensParses at h
    rw [he] at h
    exact absurd h (by decide)
  · rw [if_neg he]
    exact h

lemma builtRows_parses (env : Env) (uid : Nat) (games : List JsVal) (gid : Nat)
    (hall : ∀ g ∈ games, storedFensParses g = true) :
    ∀ r ∈ builtRows env uid games gid, rowFensParses r = true := by
  induction games generalizing gid with
  | nil => intro r hr; cases hr
  | cons a rest ih =>
    intro r hr
    rcases List.mem_cons.mp hr with rfl | hr2
    · exact storedFens_to_rowFens env uid gid a (hall a (List.mem_cons_self _ _))
    · exact ih (gid + 1) (fun g hg => hall g (List.mem_cons_of_mem _ hg)) r hr2

lemma rowsToGameOuts_ok (rows : List GameRow)
    (hall : ∀ r ∈ rows, rowFensParses r = true) :
    ∃ outs, rowsToGameOuts rows = .ok outs ∧
      ∀ r ∈ rows, ∃ o ∈ outs, rowToGameOut r = some o := by
  induction rows with
  | nil => exact ⟨[], rfl, by simp⟩
  | cons r rs ih =>
    have hx : (jsonParse (if r.fens = "" then "[]" else r.fens)).isSome = true :=
      hall r (List.mem_cons_self _ _)
    obtain ⟨v, hv⟩ := Option.isSome_iff_exists.mp hx
    have ho : rowToGameOut r = some ⟨r.id, r.pgn, v, r.created_at⟩ := by
      unfold rowToGameOut
      rw [hv]
      rfl
    obtain ⟨outs, hok, hmem⟩ := ih (fun x hx2 => hall x (List.mem_cons_of_mem _ hx2))
    refine ⟨⟨r.id, r.pgn, v, r.created_at⟩ :: outs, ?_, ?_⟩
    · simp [rowsToGameOuts, ho, hok]
    · intro r2 hr2
      rcases List.mem_cons.mp hr2 with rfl | hr3
      · exact ⟨⟨r2.id, r2.pgn, v, r2.created_at⟩, List.mem_cons_self _ _, ho⟩
      · obtain ⟨o2, ho2m, ho2⟩ := hmem r2 hr3
        exact ⟨o2, List.mem_cons_of_mem _ ho2m, ho2⟩

lemma mem_insertByDateDesc (r x : GameRow) (l : List GameRow) :
    x ∈ insertByDateDesc r l ↔ x = r ∨ x ∈ l := by
  induction l with
  | nil => simp [insertByDateDesc]
  | cons a rest ih =>
    unfold insertByDateDesc
    by_cases hle : a.created_at ≤ r.created_at
    · simp [hle]
    · simp only [hle, if_false, List.mem_cons, ih]
      tauto

lemma mem_sortByDateDesc (x : GameRow) (l : List GameRow) :
    x ∈ sortByDateDesc l ↔ x ∈ l := by
  induction l with
  | nil => simp [sortByDateDesc]
  | cons a rest ih =>
    unfold sortByDateDesc
    rw [mem_insertByDateDesc, ih, List.mem_cons]

lemma stringify_arr_ne_empty (xs : List JsVal) : jsonStringify (.arr xs) ≠ "" := by
  intro h
  have := congrArg String.data h
  simp [jsonStringify, stringifyVal] at this

/-- Claim C2 (amended part): the full wrap-and-return pipeline of the
Postgres-only server. -/
lemma rowToGameOut_wrap (env : Env) (uid n : Nat) (g : JsVal) (s : String)
    (hfens : getField g "fens" = some (.str s)) (hnp : jsonParse s = none) :
    rowToGameOut (gameRowOf env uid n g)
      = some ⟨n, pgnField g, .arr [.str s], createdAtField g env.now⟩ := by
  have hnf : normalizeFens (getField g "fens") = jsonStringify (.arr [.str s]) := by
    rw [hfens]
    simp [normalizeFens, hnp]
  unfold rowToGameOut gameRowOf
  dsimp only
  rw [hnf, if_neg (stringify_arr_ne_empty [.str s]), jsonParse_wrap]
  rfl


/-- Claim C2 (amended): in the Postgres-only server, a record whose fens
field is a string that does not parse as JSON is stored wrapped into a
one-element JSON array, the whole batch commits with `imported: n`, and
`GET /api/games` returns that record with positions equal to the one-element
array containing the original string. -/
theorem claim_C2_amended (env : Env) (st : ServerState) (sid uid : Nat)
    (uname : String) (games : List JsVal) (g : JsVal) (s : String)
    (hs : sessionOf st.sess (some sid) = ⟨some uid, some uname⟩)
    (huid : uid ≠ 0)
    (hg : g ∈ games)
    (hfens : getField g "fens" = some (.str s))
    (hnp : jsonParse s = none)
    (hnn : games.all (fun g2 => ! g2.isNull) = true)
    (hall : games.all storedFensParses = true)
    (hold : ∀ r ∈ st.db.games, rowFensParses r = true)
    (hnofail : ∀ r, env.gameInsertFails r = false) :
    (importHandler env st (some sid) (.obj [("games", .arr games)])).resp
        = ⟨200, .obj [("imported", .num (toString games.length))]⟩ ∧
    (∃ row ∈ (importHandler env st (some sid)
          (.obj [("games", .arr games)])).st.db.games,
        row.user_id = uid ∧ row.pgn = pgnField g ∧
        row.fens = jsonStringify (.arr [.str s])) ∧
    ∃ outs : List GameOut,
      gamesHandler (importHandler env st (some sid)
          (.obj [("games", .arr games)])).st (some sid)
        = ⟨⟨200, .obj [("games", .arr (outs.map gameOutJson))]⟩,
           (importHandler env st (some sid) (.obj [("games", .arr games)])).st,
           some sid⟩ ∧
      ∃ o : GameOut, o ∈ outs ∧ o.pgn = pgnField g ∧ o.fens = .arr [.str s] := by
  have hall2 : ∀ g2 ∈ games, storedFensParses g2 = true := by
    intro g2 hg2
    exact List.all_eq_true.mp hall g2 hg2
  have hnn2 : ∀ g2 ∈ games, g2.isNull = false := by
    intro g2 hg2
    simpa using List.all_eq_true.mp hnn g2 hg2
  have himp : importHandler env st (some sid) (.obj [("games", .arr games)])
      = ⟨⟨200, .obj [("imported", .num (toString games.length))]⟩,
         ⟨{ st.db with
              games := st.db.games ++ builtRows env uid games st.db.nextGameId,
              nextGameId := st.db.nextGameId
                + (builtRows env uid games st.db.nextGameId).length },
          st.sess⟩, some sid⟩ := by
    simp [importHandler, hs, userIdTruthy, huid, bodyOrEmpty, jsTruthy, getField,
      insertGamesBulk_ok env st.db uid games hnn2 hnofail]
  rw [himp]
  obtain ⟨n, hmem⟩ := builtRows_mem env uid games st.db.nextGameId g hg
  have hwrap : normalizeFens (getField g "fens") = jsonStringify (.arr [.str s]) := by
    rw [hfens]
    simp [normalizeFens, hnp]
  refine ⟨rfl,
    ⟨gameRowOf env uid n g, List.mem_append_right _ hmem,
      rfl, rfl, hwrap⟩, ?_⟩
  have hfil : (st.db.games ++ builtRows env uid games st.db.nextGameId).filter
        (fun r => r.user_id == uid)
      = st.db.games.filter (fun r => r.user_id == uid)
        ++ builtRows env uid games st.db.nextGameId := by
    rw [List.filter_append]
    congr 1
    apply List.filter_eq_self.mpr
    intro r hr
    simpa using builtRows_user env uid games st.db.nextGameId r hr
  have hparse : ∀ r ∈ sortByDateDesc
      (st.db.games.filter (fun r => r.user_id == uid)
        ++ builtRows env uid games st.db.nextGameId),
      rowFensParses r = true := by
    intro r hr
    rw [mem_sortByDateDesc] at hr
    rcases List.mem_append.mp hr with h1 | h1
    · exact hold r (List.mem_filter.mp h1).1
    · exact builtRows_parses env uid games st.db.nextGameId hall2 r h1
  obtain ⟨outs, hok, hmemo⟩ := rowsToGameOuts_ok _ hparse
  have hget : getGamesByUser
      { st.db with
          games := st.db.games ++ builtRows env uid games st.db.nextGameId,
          nextGameId := st.db.nextGameId
            + (builtRows env uid games st.db.nextGameId).length } uid
      = .ok outs := by
    unfold getGamesByUser
    dsimp only
    rw [hfil]
    exact hok
  have hrowmem : gameRowOf env uid n g ∈ sortByDateDesc
      (st.db.games.filter (fun r => r.user_id == uid)
        ++ builtRows env uid games st.db.nextGameId) := by
    rw [mem_sortByDateDesc]
    exact List.mem_append_right _ hmem
  obtain ⟨o, homem, ho⟩ := hmemo _ hrowmem
  rw [rowToGameOut_wrap env uid n g s hfens hnp] at ho
  obtain rfl := Option.some.inj ho
  refine ⟨outs, ?_, ⟨n, pgnField g, .arr [.str s], createdAtField g env.now⟩,
    homem, rfl, rfl⟩
  simp [gamesHandler, hs, userIdTruthy, huid, hget]

theorem claim_C2_amended_witness :
    sessionOf aliceSt.sess (some 0) = ⟨some 1, some "alice"⟩ ∧ (1 : Nat) ≠ 0 ∧
    (.obj [("pgn", .str "1.e4 e5"), ("fens", .str "not-json")] : JsVal)
      ∈ [(.obj [("pgn", .str "1.e4 e5"), ("fens", .str "not-json")] : JsVal)] ∧
    getField (.obj [("pgn", .str "1.e4 e5"), ("fens", .str "not-json")]) "fens"
      = some (.str "not-json") ∧
    jsonParse "not-json" = none ∧
    ([(.obj [("pgn", .str "1.e4 e5"), ("fens", .str "not-json")] : JsVal)].all
      (fun g2 => ! g2.isNull) = true) ∧
    ([(.obj [("pgn", .str "1.e4 e5"), ("fens", .str "not-json")] : JsVal)].all
      storedFensParses = true) ∧
    (∀ r ∈ aliceSt.db.games, rowFensParses r = true) ∧
    (∀ r, envOk.gameInsertFails r = false) ∧
    ((importHandler envOk aliceSt (some 0)
        (.obj [("games", .arr [.obj [("pgn", .str "1.e4 e5"),
          ("fens", .str "not-json")]])])).resp
        = ⟨200, .obj [("imported", .num (toString
            ([(.obj [("pgn", .str "1.e4 e5"), ("fens", .str "not-json")] : JsVal)]).length))]⟩ ∧
     (∃ row ∈ (importHandler envOk aliceSt (some 0)
          (.obj [("games", .arr [.obj [("pgn", .str "1.e4 e5"),
            ("fens", .str "not-json")]])])).st.db.games,
        row.user_id = 1 ∧
        row.pgn = pgnField (.obj [("pgn", .str "1.e4 e5"), ("fens", .str "not-json")]) ∧
        row.fens = jsonStringify (.arr [.str "not-json"])) ∧
     ∃ outs : List GameOut,
       gamesHandler (importHandler envOk aliceSt (some 0)
           (.obj [("games", .arr [.obj [("pgn", .str "1.e4 e5"),
             ("fens", .str "not-json")]])])).st (some 0)
         = ⟨⟨200, .obj [("games", .arr (outs.map gameOutJson))]⟩,
            (importHandler envOk aliceSt (some 0)
              (.obj [("games", .arr [.obj [("pgn", .str "1.e4 e5"),
                ("fens", .str "not-json")]])])).st, some 0⟩ ∧
       ∃ o : GameOut, o ∈ outs ∧
         o.pgn = pgnField (.obj [("pgn", .str "1.e4 e5"), ("fens", .str "not-json")]) ∧
         o.fens = .arr [.str "not-json"]) :=
  ⟨rfl, by decide, by simp, rfl, rfl, rfl, rfl, by simp [aliceSt], fun _ => rfl,
   claim_C2_amended envOk aliceSt 0 1 "alice"
     [(.obj [("pgn", .str "1.e4 e5"), ("fens", .str "not-json")] : JsVal)]
     (.obj [("pgn", .str "1.e4 e5"), ("fens", .str "not-json")]) "not-json"
     rfl (by decide) (by simp) rfl rfl rfl rfl (by simp [aliceSt]) (fun _ => rfl)⟩

/-- Claim C2, counterexample: the dual-mode server does not wrap.  The same
record import commits, but the stored text is the JSON encoding of the bare
string, and `GET /api/games` returns positions equal to the string
`"not-json"`, not the one-element array. -/
theorem claim_C2_counterexample :
    (importHandlerDual envOk aliceSt (some 0)
        (.obj [("games", .arr [.obj [("pgn", .str "1.e4 e5"),
          ("fens", .str "not-json")]])])).resp
      = ⟨200, .obj [("imported", .num "1")]⟩ ∧
    (importHandlerDual envOk aliceSt (some 0)
        (.obj [("games", .arr [.obj [("pgn", .str "1.e4 e5"),
          ("fens", .str "not-json")]])])).st.db.games
      = [⟨1, 1, "1.e4 e5", "\"not-json\"", "2026-01-01T00:00:00.000Z"⟩] ∧
    (gamesHandler (importHandlerDual envOk aliceSt (some 0)
        (.obj [("games", .arr [.obj [("pgn", .str "1.e4 e5"),
          ("fens", .str "not-json")]])])).st (some 0)).resp
      = ⟨200, .obj [("games", .arr [.obj [("id", .num "1"),
          ("pgn", .str "1.e4 e5"), ("fens", .str "not-json"),
          ("date", .str "2026-01-01T00:00:00.000Z")]])]⟩ ∧
    (JsVal.str "not-json" ≠ JsVal.arr [JsVal.str "not-json"]) :=
  ⟨rfl, rfl, rfl, fun h => JsVal.noConfusion h⟩

end Backend
